import Mathlib

/-!
Verification of the Game Boy emulator core (emulator101) against its
specification.  The Rust sources under src/emulator101/src are shallowly
embedded: machine integers become Nat with explicit wrapping (% 2^8, % 2^16),
mutable structs become explicit state passing, and the fragment of the
512-opcode interpreter needed by the claims is embedded as a fallible
function returning Option.
-/

namespace Emu101

/-- Interrupt sources, mirroring interrupts.rs InterruptType (bit indices 0-4). -/
inductive InterruptType where
  | VBlank
  | LcdStat
  | Timer
  | Serial
  | Joypad
deriving DecidableEq, Repr

/-- Bit index of an interrupt source (the Rust enum discriminant). -/
def InterruptType.idx : InterruptType → Nat
  | .VBlank => 0
  | .LcdStat => 1
  | .Timer => 2
  | .Serial => 3
  | .Joypad => 4

/-- Interrupt vector, interrupts.rs get_interrupt_vector: 0x40 + 8 * index. -/
def InterruptType.vector (it : InterruptType) : Nat :=
  0x0040 + it.idx * 0x08

/-- Timer state, mirroring timer.rs struct Timer.  All byte/word registers are
Nat kept below 2^8 / 2^16 by the operations. -/
structure Timer where
  div_counter : Nat
  tima : Nat
  tma : Nat
  tac : Nat
  previous_and_result : Bool
  tima_overflow : Bool
  tima_overflow_cycles : Nat
  queued_tima_write : Option Nat
deriving Repr

namespace Timer

/-- Reset state, timer.rs Timer::new. -/
def new : Timer :=
  { div_counter := 0xABCC
    tima := 0
    tma := 0
    tac := 0xF8
    previous_and_result := false
    tima_overflow := false
    tima_overflow_cycles := 0
    queued_tima_write := none }

/-- The DIV-counter bit selected by TAC bits 1-0 (timer.rs match on tac & 0x03:
0 maps to bit 9, 1 to bit 3, 2 to bit 5, 3 to bit 7). -/
def bitPosition (tac : Nat) : Nat :=
  match tac &&& 0x03 with
  | 0 => 9
  | 1 => 3
  | 2 => 5
  | _ => 7

/-- One t-cycle of the timer, timer.rs Timer::update_cycle.  Returns the
interrupt-request flag together with the new state. -/
def update_cycle (t : Timer) : Bool × Timer :=
  let t := { t with div_counter := (t.div_counter + 1) % 65536 }
  let bit_position := bitPosition t.tac
  let bit_value := t.div_counter &&& (1 <<< bit_position) != 0
  let timer_enabled := t.tac &&& 0x04 != 0
  let current_and_result := bit_value && timer_enabled
  let t :=
    if t.previous_and_result && !current_and_result then
      if !t.tima_overflow then
        let current_tima := t.tima
        let t := { t with tima := (t.tima + 1) % 256 }
        if current_tima == 0xFF then
          { t with tima_overflow := true, tima_overflow_cycles := 0, tima := 0 }
        else t
      else t
    else t
  let t := { t with previous_and_result := current_and_result }
  if t.tima_overflow then
    let t := { t with tima_overflow_cycles := t.tima_overflow_cycles + 1, tima := 0 }
    if t.tima_overflow_cycles == 4 then
      let t := { t with tima := t.tma }
      let t :=
        match t.queued_tima_write with
        | some value => { t with tima := value, queued_tima_write := none }
        | none => t
      (true, { t with tima_overflow := false, tima_overflow_cycles := 0 })
    else
      (false, t)
  else
    (false, t)

/-- timer.rs Timer::get_div (high byte of the 16-bit counter). -/
def get_div (t : Timer) : Nat :=
  (t.div_counter >>> 8) % 256

/-- timer.rs Timer::set_div: any write resets the counter, and the reset can
itself produce a falling edge of the selected-bit AND enable signal. -/
def set_div (t : Timer) (_value : Nat) : Timer :=
  let old_div_counter := t.div_counter
  let t := { t with div_counter := 0 }
  let bit_position := bitPosition t.tac
  let old_bit_value := old_div_counter &&& (1 <<< bit_position) != 0
  let timer_enabled := t.tac &&& 0x04 != 0
  let old_and_result := old_bit_value && timer_enabled
  let new_bit_value := false
  let new_and_result := new_bit_value && timer_enabled
  let t :=
    if old_and_result && !new_and_result then
      if !t.tima_overflow then
        let overflow := t.tima == 0xFF
        let t := { t with tima := (t.tima + 1) % 256 }
        if overflow then
          { t with tima_overflow := true, tima_overflow_cycles := 0 }
        else t
      else t
    else t
  { t with previous_and_result := new_and_result }

/-- timer.rs Timer::get_tima. -/
def get_tima (t : Timer) : Nat := t.tima

/-- timer.rs Timer::set_tima: a write during the overflow window is queued. -/
def set_tima (t : Timer) (value : Nat) : Timer :=
  if t.tima_overflow then
    { t with queued_tima_write := some value }
  else
    { t with tima := value }

/-- timer.rs Timer::get_tma. -/
def get_tma (t : Timer) : Nat := t.tma

/-- timer.rs Timer::set_tma. -/
def set_tma (t : Timer) (value : Nat) : Timer :=
  { t with tma := value }

/-- timer.rs Timer::get_tac. -/
def get_tac (t : Timer) : Nat := t.tac

/-- timer.rs Timer::set_tac: only bits 0-2 are stored; a change can itself
produce a falling edge of the selected-bit AND enable signal. -/
def set_tac (t : Timer) (value : Nat) : Timer :=
  let old_tac := t.tac
  let t := { t with tac := value &&& 0x07 }
  if old_tac != t.tac then
    let bit_position := bitPosition t.tac
    let bit_value := t.div_counter &&& (1 <<< bit_position) != 0
    let timer_enabled := t.tac &&& 0x04 != 0
    let current_and_result := bit_value && timer_enabled
    let t :=
      if t.previous_and_result && !current_and_result then
        if !t.tima_overflow then
          let overflow := t.tima == 0xFF
          let t := { t with tima := (t.tima + 1) % 256 }
          if overflow then
            { t with tima_overflow := true, tima_overflow_cycles := 0 }
          else t
        else t
      else t
    { t with previous_and_result := current_and_result }
  else t

end Timer

/-- LCD mode, ppu.rs LcdMode. -/
inductive LcdMode where
  | HBlank
  | VBlank
  | OamScan
  | Drawing
deriving DecidableEq, Repr

/-- Numeric value of an LCD mode (the Rust enum discriminant used in STAT). -/
def LcdMode.val : LcdMode → Nat
  | .HBlank => 0
  | .VBlank => 1
  | .OamScan => 2
  | .Drawing => 3

/-- Sprite attribute record, ppu.rs OamEntry. -/
structure OamEntry where
  y_pos : Nat
  x_pos : Nat
  tile_idx : Nat
  attributes : Nat
deriving DecidableEq, Repr

namespace OamEntry

/-- ppu.rs OamEntry::new. -/
def new : OamEntry := { y_pos := 0, x_pos := 0, tile_idx := 0, attributes := 0 }

/-- ppu.rs OamEntry::is_on_scanline, with the u8 wrapping subtractions made
explicit: ly >= y-16 and ly < (y-16)+size, all mod 256. -/
def is_on_scanline (e : OamEntry) (ly sprite_size : Nat) : Bool :=
  let sprite_y := (e.y_pos + 256 - 16) % 256
  ly ≥ sprite_y && ly < (sprite_y + sprite_size) % 256

/-- ppu.rs OamEntry::has_priority (attribute bit 7). -/
def has_priority (e : OamEntry) : Bool := e.attributes &&& 0x80 != 0

/-- ppu.rs OamEntry::is_y_flipped (attribute bit 6). -/
def is_y_flipped (e : OamEntry) : Bool := e.attributes &&& 0x40 != 0

/-- ppu.rs OamEntry::is_x_flipped (attribute bit 5). -/
def is_x_flipped (e : OamEntry) : Bool := e.attributes &&& 0x20 != 0

/-- ppu.rs OamEntry::palette (attribute bit 4). -/
def palette (e : OamEntry) : Nat := if e.attributes &&& 0x10 != 0 then 1 else 0

end OamEntry

/-- Strict comparison used by ppu.rs prepare_sprites_for_scanline's sort_by:
sprite X ascending, then OAM index ascending. -/
def spriteLt (a b : Nat × OamEntry) : Bool :=
  a.2.x_pos < b.2.x_pos || (a.2.x_pos == b.2.x_pos && a.1 < b.1)

/-- Stable insertion into a sorted list: a new element goes after elements it
does not strictly precede (Rust's sort_by is a stable sort). -/
def insertSprite (a : Nat × OamEntry) : List (Nat × OamEntry) → List (Nat × OamEntry)
  | [] => [a]
  | b :: l => if spriteLt a b then a :: b :: l else b :: insertSprite a l

/-- Stable sort by (X, OAM index), modelling the Vec::sort_by call in
ppu.rs prepare_sprites_for_scanline. -/
def sortSprites : List (Nat × OamEntry) → List (Nat × OamEntry)
  | [] => []
  | a :: l => insertSprite a (sortSprites l)

/-- PPU state, mirroring ppu.rs struct Ppu.  The byte arrays (frame buffer,
VRAM, OAM) are total functions from index to byte value. -/
structure Ppu where
  frame_buffer : Nat → Nat
  vram : Nat → Nat
  oam : Nat → Nat
  oam_entries : Nat → OamEntry
  scanline_sprites : List (Nat × OamEntry)
  lcdc : Nat
  stat : Nat
  scy : Nat
  scx : Nat
  ly : Nat
  lyc : Nat
  dma : Nat
  bgp : Nat
  obp0 : Nat
  obp1 : Nat
  wy : Nat
  wx : Nat
  window_line : Nat
  mode : LcdMode
  mode_cycles : Nat
  vram_accessible : Bool
  oam_accessible : Bool
  frame_ready : Bool
  oam_dma_active : Bool
  oam_dma_byte : Nat
  fetcher_x : Nat
  window_active : Bool
  last_frame_window_active : Bool
  lyc_interrupt_triggered : Bool
  cpu_vram_bus_conflict : Bool
  cpu_oam_bus_conflict : Bool

namespace Ppu

/-- Reset state, ppu.rs Ppu::new (the OAM is all zero, so the parsed entries
produced by update_oam_entries are all OamEntry::new). -/
def new : Ppu :=
  { frame_buffer := fun _ => 0xFF
    vram := fun _ => 0
    oam := fun _ => 0
    oam_entries := fun _ => OamEntry.new
    scanline_sprites := []
    lcdc := 0x91
    stat := 0x85
    scy := 0
    scx := 0
    ly := 0
    lyc := 0
    dma := 0xFF
    bgp := 0xFC
    obp0 := 0xFF
    obp1 := 0xFF
    wy := 0
    wx := 0
    window_line := 0
    mode := LcdMode.VBlank
    mode_cycles := 0
    vram_accessible := true
    oam_accessible := true
    frame_ready := false
    oam_dma_active := false
    oam_dma_byte := 0
    fetcher_x := 0
    window_active := false
    last_frame_window_active := false
    lyc_interrupt_triggered := false
    cpu_vram_bus_conflict := false
    cpu_oam_bus_conflict := false }

/-- ppu.rs Ppu::read_vram (returns 0xFF while VRAM is locked and the LCD is on). -/
def read_vram (p : Ppu) (addr : Nat) : Nat :=
  if !p.vram_accessible && p.lcdc &&& 0x80 != 0 then 0xFF
  else p.vram (addr - 0x8000)

/-- ppu.rs Ppu::write_vram. -/
def write_vram (p : Ppu) (addr value : Nat) : Ppu :=
  if !p.vram_accessible && p.lcdc &&& 0x80 != 0 then
    { p with cpu_vram_bus_conflict := true }
  else
    { p with vram := fun a => if a = addr - 0x8000 then value else p.vram a }

/-- ppu.rs Ppu::read_oam (0xFF when out of bounds, locked with LCD on, or
during OAM DMA). -/
def read_oam (p : Ppu) (addr : Nat) : Nat :=
  let oam_addr := addr - 0xFE00
  if oam_addr ≥ 0xA0 then 0xFF
  else if !p.oam_accessible && p.lcdc &&& 0x80 != 0 then 0xFF
  else if p.oam_dma_active then 0xFF
  else p.oam oam_addr

/-- Update one field of a parsed OAM entry, mirroring the match at the end of
ppu.rs Ppu::write_oam. -/
def writeOamEntryField (entries : Nat → OamEntry) (entry_idx byte_idx value : Nat) :
    Nat → OamEntry :=
  fun i =>
    if i = entry_idx then
      let e := entries entry_idx
      match byte_idx with
      | 0 => { e with y_pos := value }
      | 1 => { e with x_pos := value }
      | 2 => { e with tile_idx := value }
      | _ => { e with attributes := value }
    else entries i

/-- ppu.rs Ppu::write_oam. -/
def write_oam (p : Ppu) (addr value : Nat) : Ppu :=
  let oam_addr := addr - 0xFE00
  if oam_addr ≥ 0xA0 then p
  else if !p.oam_accessible && p.lcdc &&& 0x80 != 0 then
    { p with cpu_oam_bus_conflict := true }
  else if p.oam_dma_active then p
  else
    let p := { p with oam := fun a => if a = oam_addr then value else p.oam a }
    { p with oam_entries := writeOamEntryField p.oam_entries (oam_addr / 4) (oam_addr % 4) value }

/-- Modelled from the spec: MemoryBus::process_dma_cycle calls
Ppu::write_oam_internal, which is not present in ppu.rs.  Per the spec
("One byte per m-cycle is read from src + i and written to OAM[i]") and the
unchecked OAM write in Ppu::process_dma_byte, it writes the OAM byte directly,
bypassing the access checks, and keeps the parsed entry in sync. -/
def write_oam_internal (p : Ppu) (pos value : Nat) : Ppu :=
  let p := { p with oam := fun a => if a = pos then value else p.oam a }
  { p with oam_entries := writeOamEntryField p.oam_entries (pos / 4) (pos % 4) value }

/-- ppu.rs Ppu::begin_oam_dma. -/
def begin_oam_dma (p : Ppu) (value : Nat) : Ppu :=
  { p with dma := value, oam_dma_active := true, oam_dma_byte := 0 }

/-- ppu.rs Ppu::get_ly. -/
def get_ly (p : Ppu) : Nat := p.ly

/-- ppu.rs Ppu::read_register. -/
def read_register (p : Ppu) (addr : Nat) : Nat :=
  if addr = 0xFF40 then p.lcdc
  else if addr = 0xFF41 then
    let mode_bits := p.mode.val
    let lyc_flag := if p.ly == p.lyc then 0x04 else 0x00
    (p.stat &&& 0xF8) ||| lyc_flag ||| mode_bits
  else if addr = 0xFF42 then p.scy
  else if addr = 0xFF43 then p.scx
  else if addr = 0xFF44 then p.get_ly
  else if addr = 0xFF45 then p.lyc
  else if addr = 0xFF46 then p.dma
  else if addr = 0xFF47 then p.bgp
  else if addr = 0xFF48 then p.obp0
  else if addr = 0xFF49 then p.obp1
  else if addr = 0xFF4A then p.wy
  else if addr = 0xFF4B then p.wx
  else 0xFF

/-- ppu.rs Ppu::write_register. -/
def write_register (p : Ppu) (addr value : Nat) : Ppu :=
  if addr = 0xFF40 then
    let old_lcd_enable := p.lcdc &&& 0x80 != 0
    let new_lcd_enable := value &&& 0x80 != 0
    let p := { p with lcdc := value }
    if old_lcd_enable && !new_lcd_enable then
      { p with ly := 0, mode := LcdMode.HBlank, mode_cycles := 0,
               vram_accessible := true, oam_accessible := true, window_line := 0 }
    else if !old_lcd_enable && new_lcd_enable then
      { p with mode_cycles := 0, mode := LcdMode.OamScan }
    else p
  else if addr = 0xFF41 then
    let p := { p with stat := (value &&& 0x78) ||| (p.stat &&& 0x07) }
    if p.ly == p.lyc && value &&& 0x40 != 0 && !p.lyc_interrupt_triggered then
      { p with lyc_interrupt_triggered := true }
    else p
  else if addr = 0xFF42 then { p with scy := value }
  else if addr = 0xFF43 then { p with scx := value }
  else if addr = 0xFF44 then p
  else if addr = 0xFF45 then
    let p := { p with lyc := value }
    if p.ly == value then
      let p := { p with stat := p.stat ||| 0x04 }
      if p.stat &&& 0x40 != 0 && !p.lyc_interrupt_triggered then
        { p with lyc_interrupt_triggered := true }
      else p
    else
      { p with stat := p.stat &&& 0xFB }
  else if addr = 0xFF46 then p
  else if addr = 0xFF47 then { p with bgp := value }
  else if addr = 0xFF48 then { p with obp0 := value }
  else if addr = 0xFF49 then { p with obp1 := value }
  else if addr = 0xFF4A then { p with wy := value }
  else if addr = 0xFF4B then { p with wx := value }
  else p

/-- ppu.rs Ppu::prepare_sprites_for_scanline: collect every OAM-resident
sprite on the line in index order, stably sort by (X, index), truncate to 10,
then reverse for back-to-front rendering. -/
def prepare_sprites_for_scanline (p : Ppu) : Ppu :=
  let p := { p with scanline_sprites := [] }
  if p.lcdc &&& 0x02 == 0 then p
  else
    let sprite_size := if p.lcdc &&& 0x04 != 0 then 16 else 8
    let collected :=
      (List.range 40).foldl
        (fun acc idx =>
          let sprite := p.oam_entries idx
          if sprite.is_on_scanline p.ly sprite_size then acc ++ [(idx, sprite)] else acc)
        []
    let sorted := sortSprites collected
    let limited := sorted.take 10
    { p with scanline_sprites := limited.reverse }

/-- ppu.rs Ppu::get_color: two palette bits per color index. -/
def get_color (_p : Ppu) (color_idx palette : Nat) : Nat :=
  (palette >>> (2 * color_idx)) &&& 0x03

/-- ppu.rs Ppu::render_background: one pass over the 160 pixels of the current
scanline, writing (palette color, raw-color-nonzero) pairs into the scanline
buffer. -/
def render_background (p : Ppu) (buf : Nat → Nat × Bool) : Nat → Nat × Bool :=
  let tile_map_addr := if p.lcdc &&& 0x08 != 0 then 0x9C00 else 0x9800
  let tile_data_signed := p.lcdc &&& 0x10 == 0
  let y_pos := (p.ly + p.scy) % 256
  let tile_row := y_pos / 8
  let tile_y := y_pos % 8
  (List.range 160).foldl
    (fun buf x =>
      let x_pos := (x + p.scx) % 256
      let tile_col := x_pos / 8
      let tile_x := x_pos % 8
      let tile_map_index := tile_map_addr + tile_row * 32 + tile_col
      let tile_index := p.read_vram tile_map_index
      let tile_data_index :=
        if !tile_data_signed then 0x8000 + tile_index * 16
        else 0x8800 + ((tile_index + 128) % 256) * 16
      let tile_data_low := p.read_vram (tile_data_index + tile_y * 2)
      let tile_data_high := p.read_vram (tile_data_index + tile_y * 2 + 1)
      let bit_pos := 7 - tile_x
      let color_bit_low := (tile_data_low >>> bit_pos) &&& 0x01
      let color_bit_high := (tile_data_high >>> bit_pos) &&& 0x01
      let color_idx := (color_bit_high <<< 1) ||| color_bit_low
      let color := p.get_color color_idx p.bgp
      fun a => if a = x then (color, color_idx != 0) else buf a)
    buf

/-- ppu.rs Ppu::render_window: draws the window portion of the scanline and
increments the internal window line counter when any window pixel was
emitted. -/
def render_window (p : Ppu) (buf : Nat → Nat × Bool) : (Nat → Nat × Bool) × Ppu :=
  if p.lcdc &&& 0x20 == 0 then (buf, p)
  else if p.lcdc &&& 0x01 == 0 then (buf, p)
  else if p.ly < p.wy then (buf, p)
  else if p.wx ≥ 167 then (buf, p)
  else
    let tile_map_addr := if p.lcdc &&& 0x40 != 0 then 0x9C00 else 0x9800
    let tile_data_signed := p.lcdc &&& 0x10 == 0
    let window_y := p.window_line
    let tile_row := window_y / 8
    let tile_y := window_y % 8
    let start_x := p.wx - 7
    let (buf, rendered) :=
      (List.range 160).foldl
        (fun acc x =>
          let (buf, rendered) := acc
          if x < start_x then (buf, rendered)
          else
            let window_x := (x + 256 - start_x) % 256
            let tile_col := window_x / 8
            let tile_x := window_x % 8
            let tile_map_index := tile_map_addr + tile_row * 32 + tile_col
            let tile_index := p.read_vram tile_map_index
            let tile_data_index :=
              if !tile_data_signed then 0x8000 + tile_index * 16
              else 0x8800 + ((tile_index + 128) % 256) * 16
            let tile_data_low := p.read_vram (tile_data_index + tile_y * 2)
            let tile_data_high := p.read_vram (tile_data_index + tile_y * 2 + 1)
            let bit_pos := 7 - tile_x
            let color_bit_low := (tile_data_low >>> bit_pos) &&& 0x01
            let color_bit_high := (tile_data_high >>> bit_pos) &&& 0x01
            let color_idx := (color_bit_high <<< 1) ||| color_bit_low
            let color := p.get_color color_idx p.bgp
            ((fun a => if a = x then (color, color_idx != 0) else buf a), true))
        (buf, false)
    if rendered then (buf, { p with window_line := p.window_line + 1 }) else (buf, p)

/-- ppu.rs Ppu::render_sprites: composites the pre-selected scanline sprites
(already reverse-sorted) over the scanline buffer with X=0 suppression,
flips, the 8x16 tile-pair rule, transparency of color 0 and the
behind-background priority bit. -/
def render_sprites (p : Ppu) (buf : Nat → Nat × Bool) : Nat → Nat × Bool :=
  if p.lcdc &&& 0x02 == 0 then buf
  else
    let sprite_size := if p.lcdc &&& 0x04 != 0 then 16 else 8
    p.scanline_sprites.foldl
      (fun buf idx_sprite =>
        let sprite := idx_sprite.2
        let sprite_y := (sprite.y_pos + 256 - 16) % 256
        let sprite_x := (sprite.x_pos + 256 - 8) % 256
        if sprite.x_pos == 0 then buf
        else
          let priority := sprite.has_priority
          let flip_y := sprite.is_y_flipped
          let flip_x := sprite.is_x_flipped
          let palette := if sprite.palette == 1 then p.obp1 else p.obp0
          let tile_idx := sprite.tile_idx
          let tile_idx := if sprite_size == 16 then tile_idx &&& 0xFE else tile_idx
          let y_offset := (p.ly + 256 - sprite_y) % 256
          let y_offset := if flip_y then sprite_size - 1 - y_offset else y_offset
          let pair :=
            if sprite_size == 16 && y_offset ≥ 8 then (tile_idx + 1, y_offset - 8)
            else (tile_idx, y_offset)
          let tile_idx := pair.1
          let y_offset := pair.2
          let tile_data_addr := 0x8000 + tile_idx * 16 + y_offset * 2
          let tile_data_low := p.read_vram tile_data_addr
          let tile_data_high := p.read_vram (tile_data_addr + 1)
          (List.range 8).foldl
            (fun buf x_offset =>
              let screen_x := (sprite_x + x_offset) % 256
              if screen_x ≥ 160 then buf
              else
                let bit_pos := if flip_x then x_offset else 7 - x_offset
                let color_bit_low := (tile_data_low >>> bit_pos) &&& 0x01
                let color_bit_high := (tile_data_high >>> bit_pos) &&& 0x01
                let color_idx := (color_bit_high <<< 1) ||| color_bit_low
                if color_idx == 0 then buf
                else
                  let color := p.get_color color_idx palette
                  let bg := buf screen_x
                  if !bg.2 || !priority then
                    fun a => if a = screen_x then (color, false) else buf a
                  else if p.lcdc &&& 0x01 == 0 then
                    fun a => if a = screen_x then (color, false) else buf a
                  else buf)
            buf)
      buf

/-- The green-tinted RGBA quadruple for one 2-bit color, from the match in
ppu.rs Ppu::finalize_scanline. -/
def colorRgba (color : Nat) : Nat × Nat × Nat × Nat :=
  match color with
  | 0 => (224, 248, 208, 255)
  | 1 => (136, 192, 112, 255)
  | 2 => (52, 104, 86, 255)
  | _ => (8, 24, 32, 255)

/-- ppu.rs Ppu::finalize_scanline: copy the scanline buffer into the RGBA
frame buffer (no-op above line 143). -/
def finalize_scanline (p : Ppu) (buf : Nat → Nat × Bool) : Ppu :=
  if p.ly ≥ 144 then p
  else
    (List.range 160).foldl
      (fun p x =>
        let color := (buf x).1
        let frame_idx := (p.ly * 160 + x) * 4
        let rgba := colorRgba color
        { p with frame_buffer := fun a =>
            if a = frame_idx then rgba.1
            else if a = frame_idx + 1 then rgba.2.1
            else if a = frame_idx + 2 then rgba.2.2.1
            else if a = frame_idx + 3 then rgba.2.2.2
            else p.frame_buffer a })
      p

/-- ppu.rs Ppu::render_scanline. -/
def render_scanline (p : Ppu) : Ppu :=
  if p.lcdc &&& 0x80 == 0 then p
  else
    let buf : Nat → Nat × Bool := fun _ => (0, false)
    let buf :=
      if p.lcdc &&& 0x01 != 0 then p.render_background buf
      else fun _ => (0, false)
    let (buf, p) :=
      if p.lcdc &&& 0x20 != 0 then p.render_window buf else (buf, p)
    let buf :=
      if p.lcdc &&& 0x02 != 0 then p.render_sprites buf else buf
    p.finalize_scanline buf

/-- ppu.rs Ppu::update: advance the PPU state machine by the given number of
t-cycles' worth of mode progress, returning at most one interrupt request.
The later assignments to the interrupt variable in the source overwrite the
earlier ones, which is mirrored here exactly. -/
def update (p : Ppu) (cycles : Nat) : Ppu × Option InterruptType :=
  if p.lcdc &&& 0x80 == 0 then
    ({ p with ly := 0, mode := LcdMode.HBlank, window_line := 0,
              vram_accessible := true, oam_accessible := true }, none)
  else
    let interrupt : Option InterruptType := none
    let p := { p with mode_cycles := p.mode_cycles + cycles }
    let (p, interrupt) :=
      if p.ly == p.lyc then
        let p := { p with stat := p.stat ||| 0x04 }
        if p.stat &&& 0x40 != 0 && !p.lyc_interrupt_triggered then
          ({ p with lyc_interrupt_triggered := true }, some InterruptType.LcdStat)
        else (p, interrupt)
      else
        ({ p with stat := p.stat &&& 0xFB, lyc_interrupt_triggered := false }, interrupt)
    let (p, interrupt) :=
      match p.mode with
      | LcdMode.OamScan =>
        let p := { p with oam_accessible := false, vram_accessible := true }
        if p.mode_cycles ≥ 80 then
          let p := { p with mode := LcdMode.Drawing, mode_cycles := p.mode_cycles - 80,
                            vram_accessible := false }
          let p := p.prepare_sprites_for_scanline
          let p := { p with fetcher_x := 0, window_active := false }
          let p :=
            if p.lcdc &&& 0x20 != 0 && p.ly ≥ p.wy && p.wx ≤ 166 then
              { p with window_active := true }
            else p
          if p.stat &&& 0x20 != 0 then (p, some InterruptType.LcdStat)
          else (p, interrupt)
        else (p, interrupt)
      | LcdMode.Drawing =>
        let p := { p with oam_accessible := false, vram_accessible := false }
        let sprite_cycles := min (p.scanline_sprites.length * 6) 60
        let drawing_cycles := 172 + sprite_cycles
        if p.mode_cycles ≥ drawing_cycles then
          let p := { p with mode := LcdMode.HBlank,
                            mode_cycles := p.mode_cycles - drawing_cycles,
                            vram_accessible := true, oam_accessible := true }
          let p := p.render_scanline
          if p.stat &&& 0x08 != 0 then (p, some InterruptType.LcdStat)
          else (p, interrupt)
        else (p, interrupt)
      | LcdMode.HBlank =>
        let p := { p with vram_accessible := true, oam_accessible := true }
        let hblank_cycles := 456 - (80 + 172 + min (p.scanline_sprites.length * 6) 60)
        if p.mode_cycles ≥ hblank_cycles then
          let p := { p with mode_cycles := p.mode_cycles - hblank_cycles }
          let p := { p with ly := (p.ly + 1) % 154, lyc_interrupt_triggered := false }
          if p.ly == 144 then
            let p := { p with mode := LcdMode.VBlank, frame_ready := true }
            let interrupt := some InterruptType.VBlank
            if p.stat &&& 0x10 != 0 then (p, some InterruptType.LcdStat)
            else (p, interrupt)
          else
            let p := { p with mode := LcdMode.OamScan }
            if p.stat &&& 0x20 != 0 then (p, some InterruptType.LcdStat)
            else (p, interrupt)
        else (p, interrupt)
      | LcdMode.VBlank =>
        let p := { p with vram_accessible := true, oam_accessible := true }
        if p.mode_cycles ≥ 456 then
          let p := { p with mode_cycles := p.mode_cycles - 456 }
          let p := { p with ly := (p.ly + 1) % 154, lyc_interrupt_triggered := false }
          if p.ly == 0 then
            let p := if !p.last_frame_window_active then { p with window_line := 0 } else p
            let p := { p with last_frame_window_active := false, mode := LcdMode.OamScan }
            if p.stat &&& 0x20 != 0 then (p, some InterruptType.LcdStat)
            else (p, interrupt)
          else (p, interrupt)
        else (p, interrupt)
    ({ p with stat := (p.stat &&& 0xFC) ||| p.mode.val }, interrupt)

/-- ppu.rs Ppu::is_frame_ready lookalike used by the scheduler loop. -/
def is_frame_ready (p : Ppu) : Bool := p.frame_ready

end Ppu

/-- CPU memory-access arbitration tag, memory.rs enum MemoryAccessType. -/
inductive MemoryAccessType where
  | Read
  | Write
  | DMA
  | NoAccess
deriving DecidableEq, Repr

/-- Memory bus state, mirroring memory.rs struct MemoryBus.  The RAM regions
are total functions from index to byte; the ROM is the loaded image as a list
(so out-of-range reads fall back to 0xFF as in the source's length checks). -/
structure MemoryBus where
  wram : Nat → Nat
  hram : Nat → Nat
  io_registers : Nat → Nat
  ie_register : Nat
  rom : List Nat
  eram : Nat → Nat
  timer : Timer
  ppu : Ppu
  joypad_select : Nat
  joypad_buttons : Nat
  joypad_dpad : Nat
  last_joypad_state : Nat
  joypad_debounce_counter : Nat
  joypad_debounce_delay : Nat
  serial_data : Nat
  serial_control : Nat
  serial_transfer_active : Bool
  serial_bit_counter : Nat
  serial_clock_counter : Nat
  clock_m_cycles : Nat
  memory_access_in_progress : Bool
  memory_access_cycles_remaining : Nat
  memory_access_type : MemoryAccessType
  memory_access_address : Nat
  memory_access_value : Option Nat

namespace MemoryBus

/-- Reset state, memory.rs MemoryBus::new (including the post-boot IF value
0xE1 written into io_registers[0x0F]). -/
def new (rom : List Nat) : MemoryBus :=
  { wram := fun _ => 0
    hram := fun _ => 0
    io_registers := fun a => if a = 0x0F then 0xE1 else 0
    ie_register := 0
    rom := rom
    eram := fun _ => 0
    timer := Timer.new
    ppu := Ppu.new
    joypad_select := 0xCF
    joypad_buttons := 0x0F
    joypad_dpad := 0x0F
    last_joypad_state := 0xCF
    joypad_debounce_counter := 0
    joypad_debounce_delay := 1
    serial_data := 0
    serial_control := 0x7E
    serial_transfer_active := false
    serial_bit_counter := 0
    serial_clock_counter := 0
    clock_m_cycles := 0
    memory_access_in_progress := false
    memory_access_cycles_remaining := 0
    memory_access_type := MemoryAccessType.NoAccess
    memory_access_address := 0
    memory_access_value := none }

/-- memory.rs MemoryBus::set_if: only bits 0-4 of the value are taken, bits
5-7 of the stored byte are forced to 1. -/
def set_if (bus : MemoryBus) (value : Nat) : MemoryBus :=
  { bus with io_registers :=
      fun a => if a = 0x0F then (value &&& 0x1F) ||| 0xE0 else bus.io_registers a }

/-- memory.rs MemoryBus::set_ie. -/
def set_ie (bus : MemoryBus) (value : Nat) : MemoryBus :=
  { bus with ie_register := (value &&& 0x1F) ||| 0xE0 }

/-- memory.rs MemoryBus::get_ie (ORs in 0xE0 on read). -/
def get_ie (bus : MemoryBus) : Nat :=
  bus.ie_register ||| 0xE0

/-- memory.rs MemoryBus::get_if (returns the stored byte directly). -/
def get_if (bus : MemoryBus) : Nat :=
  bus.io_registers 0x0F

/-- memory.rs MemoryBus::request_interrupt via
interrupts.rs InterruptController::request_interrupt: OR the bit into IF. -/
def request_interrupt (bus : MemoryBus) (it : InterruptType) : MemoryBus :=
  { bus with io_registers :=
      fun a => if a = 0x0F then bus.io_registers 0x0F ||| (1 <<< it.idx)
               else bus.io_registers a }

/-- memory.rs MemoryBus::clear_interrupt via
interrupts.rs InterruptController::clear_interrupt: clear the bit in IF using
the complement mask (taken within the byte range, as for u8). -/
def clear_interrupt (bus : MemoryBus) (it : InterruptType) : MemoryBus :=
  { bus with io_registers :=
      fun a => if a = 0x0F then bus.io_registers 0x0F &&& (0xFF - (1 <<< it.idx))
               else bus.io_registers a }

/-- memory.rs MemoryBus::read_io (a pure function of the bus state). -/
def read_io_reg (bus : MemoryBus) (addr : Nat) : Nat :=
  if addr = 0xFF00 then
    if bus.joypad_select &&& 0x20 == 0 then
      0xC0 ||| (bus.joypad_select &&& 0x30) ||| bus.joypad_buttons
    else if bus.joypad_select &&& 0x10 == 0 then
      0xC0 ||| (bus.joypad_select &&& 0x30) ||| bus.joypad_dpad
    else 0xCF
  else if addr = 0xFF01 then bus.serial_data
  else if addr = 0xFF02 then bus.serial_control
  else if addr = 0xFF04 then bus.timer.get_div
  else if addr = 0xFF05 then bus.timer.get_tima
  else if addr = 0xFF06 then bus.timer.get_tma
  else if addr = 0xFF07 then bus.timer.get_tac
  else if addr = 0xFF24 then 0x77
  else if addr = 0xFF25 then 0xF3
  else if addr = 0xFF26 then 0xF1
  else if addr = 0xFF0F then bus.get_if
  else if 0xFF40 ≤ addr ∧ addr ≤ 0xFF4B then bus.ppu.read_register addr
  else bus.io_registers (addr - 0xFF00)

/-- memory.rs MemoryBus::begin_oam_dma: start the PPU transfer and block CPU
memory access for 160 m-cycles. -/
def begin_oam_dma (bus : MemoryBus) (value : Nat) : MemoryBus :=
  let bus := { bus with ppu := bus.ppu.begin_oam_dma value }
  { bus with memory_access_in_progress := true,
             memory_access_type := MemoryAccessType.DMA,
             memory_access_cycles_remaining := 160 }

/-- memory.rs MemoryBus::write_io. -/
def write_io_reg (bus : MemoryBus) (addr value : Nat) : MemoryBus :=
  if addr = 0xFF00 then
    { bus with joypad_select := 0xC0 ||| (value &&& 0x30) ||| (bus.joypad_select &&& 0xF) }
  else if addr = 0xFF01 then { bus with serial_data := value }
  else if addr = 0xFF02 then
    let bus := { bus with serial_control := value &&& 0x83 }
    if bus.serial_control &&& 0x80 != 0 then
      { bus with serial_transfer_active := true, serial_bit_counter := 0,
                 serial_clock_counter := 0 }
    else bus
  else if addr = 0xFF04 then { bus with timer := bus.timer.set_div value }
  else if addr = 0xFF05 then { bus with timer := bus.timer.set_tima value }
  else if addr = 0xFF06 then { bus with timer := bus.timer.set_tma value }
  else if addr = 0xFF07 then { bus with timer := bus.timer.set_tac value }
  else if addr = 0xFF0F then bus.set_if value
  else if 0xFF40 ≤ addr ∧ addr ≤ 0xFF4B then
    if addr = 0xFF46 then bus.begin_oam_dma value
    else { bus with ppu := bus.ppu.write_register addr value }
  else
    { bus with io_registers :=
        fun a => if a = addr - 0xFF00 then value else bus.io_registers a }

/-- memory.rs MemoryBus::read_byte.  During an active DMA access window every
address outside HRAM reads 0xFF without touching the bus state; otherwise the
access-tracking fields are set (each region costs 1 m-cycle in the source's
table) and the region is decoded. -/
def read_byte (bus : MemoryBus) (addr : Nat) : Nat × MemoryBus :=
  if bus.memory_access_type = MemoryAccessType.DMA ∧ ¬(0xFF80 ≤ addr ∧ addr ≤ 0xFFFE) then
    (0xFF, bus)
  else
    let bus := { bus with memory_access_in_progress := true,
                          memory_access_type := MemoryAccessType.Read,
                          memory_access_address := addr,
                          memory_access_cycles_remaining := 1 }
    let value :=
      if addr ≤ 0x3FFF then (bus.rom[addr]?).getD 0xFF
      else if addr ≤ 0x7FFF then (bus.rom[addr]?).getD 0xFF
      else if addr ≤ 0x9FFF then bus.ppu.read_vram addr
      else if addr ≤ 0xBFFF then
        (if addr - 0xA000 < 0x2000 then bus.eram (addr - 0xA000) else 0xFF)
      else if addr ≤ 0xDFFF then bus.wram (addr - 0xC000)
      else if addr ≤ 0xFDFF then bus.wram (addr - 0xE000)
      else if addr ≤ 0xFE9F then bus.ppu.read_oam addr
      else if 0xFF00 ≤ addr ∧ addr ≤ 0xFF7F then bus.read_io_reg addr
      else if 0xFF80 ≤ addr ∧ addr ≤ 0xFFFE then bus.hram (addr - 0xFF80)
      else if addr = 0xFFFF then bus.get_ie
      else 0xFF
    (value, bus)

/-- memory.rs MemoryBus::write_byte.  During an active DMA access window every
write outside HRAM is discarded; otherwise the access-tracking fields are set
and the region is decoded (writes to ROM and unused regions fall through). -/
def write_byte (bus : MemoryBus) (addr value : Nat) : MemoryBus :=
  if bus.memory_access_type = MemoryAccessType.DMA ∧ ¬(0xFF80 ≤ addr ∧ addr ≤ 0xFFFE) then
    bus
  else
    let bus := { bus with memory_access_in_progress := true,
                          memory_access_type := MemoryAccessType.Write,
                          memory_access_address := addr,
                          memory_access_value := some value,
                          memory_access_cycles_remaining := 1 }
    if addr ≤ 0x7FFF then bus
    else if addr ≤ 0x9FFF then { bus with ppu := bus.ppu.write_vram addr value }
    else if addr ≤ 0xBFFF then
      (if addr - 0xA000 < 0x2000 then
        { bus with eram := fun a => if a = addr - 0xA000 then value else bus.eram a }
      else bus)
    else if addr ≤ 0xDFFF then
      { bus with wram := fun a => if a = addr - 0xC000 then value else bus.wram a }
    else if addr ≤ 0xFDFF then
      { bus with wram := fun a => if a = addr - 0xE000 then value else bus.wram a }
    else if addr ≤ 0xFE9F then { bus with ppu := bus.ppu.write_oam addr value }
    else if 0xFF00 ≤ addr ∧ addr ≤ 0xFF7F then bus.write_io_reg addr value
    else if 0xFF80 ≤ addr ∧ addr ≤ 0xFFFE then
      { bus with hram := fun a => if a = addr - 0xFF80 then value else bus.hram a }
    else if addr = 0xFFFF then bus.set_ie value
    else bus

/-- memory.rs MemoryBus::is_memory_access_in_progress. -/
def access_in_progress (bus : MemoryBus) : Bool :=
  bus.memory_access_in_progress

/-- memory.rs MemoryBus::update_timer_cycle. -/
def update_timer_cycle (bus : MemoryBus) : Bool × MemoryBus :=
  let (irq, t) := bus.timer.update_cycle
  (irq, { bus with timer := t })

/-- Modelled from the spec: MemoryBus::update_ppu_cycle calls Ppu::update_cycle,
which is not present in ppu.rs.  Per the spec's tick contract ("advance the PPU
by 4 t-cycles", one call per t-cycle) it is Ppu::update advanced by one
t-cycle. -/
def update_ppu_cycle (bus : MemoryBus) : Ppu × Option InterruptType :=
  bus.ppu.update 1

/-- memory.rs MemoryBus::update_serial_cycle: internal-clock transfers shift
in an idle 1 every 512 t-cycles; the 8th bit completes the transfer, clears
SC bit 7 and requests a Serial interrupt. -/
def update_serial_cycle (bus : MemoryBus) : Bool × MemoryBus :=
  if !bus.serial_transfer_active then (false, bus)
  else if bus.serial_control &&& 0x01 != 0 then
    let bus := { bus with serial_clock_counter := (bus.serial_clock_counter + 1) % 65536 }
    if bus.serial_clock_counter == 512 then
      let bus := { bus with serial_clock_counter := bus.serial_clock_counter - 512 }
      let bus := { bus with serial_bit_counter := bus.serial_bit_counter + 1,
                            serial_data := ((bus.serial_data <<< 1) &&& 0xFF) ||| 1 }
      if bus.serial_bit_counter == 8 then
        (true, { bus with serial_transfer_active := false, serial_bit_counter := 0,
                          serial_control := bus.serial_control &&& 0x7F })
      else (false, bus)
    else (false, bus)
  else (false, bus)

/-- memory.rs MemoryBus::update_joypad_cycle: only decrements the debounce
counter; never requests an interrupt from the tick path. -/
def update_joypad_cycle (bus : MemoryBus) : Bool × MemoryBus :=
  let bus :=
    if bus.joypad_debounce_counter > 0 then
      { bus with joypad_debounce_counter := bus.joypad_debounce_counter - 1 }
    else bus
  (false, bus)

/-- The direct (timing-free) memory read used by the DMA engine, from the big
match inside memory.rs MemoryBus::process_dma_cycle. -/
def dma_read (bus : MemoryBus) (addr : Nat) : Nat :=
  if addr ≤ 0x3FFF then (bus.rom[addr]?).getD 0xFF
  else if addr ≤ 0x7FFF then (bus.rom[addr]?).getD 0xFF
  else if addr ≤ 0x9FFF then bus.ppu.read_vram addr
  else if addr ≤ 0xBFFF then
    (if addr - 0xA000 < 0x2000 then bus.eram (addr - 0xA000) else 0xFF)
  else if addr ≤ 0xDFFF then bus.wram (addr - 0xC000)
  else if addr ≤ 0xFDFF then bus.wram (addr - 0xE000)
  else if addr ≤ 0xFE9F then bus.ppu.read_oam addr
  else if 0xFF00 ≤ addr ∧ addr ≤ 0xFF7F then bus.read_io_reg addr
  else if 0xFF80 ≤ addr ∧ addr ≤ 0xFFFE then bus.hram (addr - 0xFF80)
  else if addr = 0xFFFF then bus.get_ie
  else 0xFF

/-- memory.rs MemoryBus::process_dma_cycle: copy one byte from the latched
source page into OAM; after byte 159 the transfer deactivates.  The source
field Ppu::oam_dma_source (absent from ppu.rs) is the DMA register shifted
left by eight bits, as latched by begin_oam_dma. -/
def process_dma_cycle (bus : MemoryBus) : MemoryBus :=
  if !bus.ppu.oam_dma_active then bus
  else
    let byte_pos := bus.ppu.oam_dma_byte
    let addr := (bus.ppu.dma <<< 8) + byte_pos
    let value := bus.dma_read addr
    let p := bus.ppu.write_oam_internal byte_pos value
    let p := { p with oam_dma_byte := p.oam_dma_byte + 1 }
    let p :=
      if p.oam_dma_byte ≥ 0xA0 then
        { p with oam_dma_active := false, oam_dma_byte := 0 }
      else p
    { bus with ppu := p }

/-- memory.rs MemoryBus::tick: one m-cycle of the whole bus — expire the
access window, move one DMA byte, then run the timer, PPU, serial and joypad
for 4 t-cycles each, routing requested interrupts into IF, and advance the
m-cycle clock. -/
def tick (bus : MemoryBus) : MemoryBus × Option InterruptType :=
  let bus :=
    if bus.memory_access_in_progress then
      let bus := { bus with memory_access_cycles_remaining :=
                     bus.memory_access_cycles_remaining - 1 }
      if bus.memory_access_cycles_remaining = 0 then
        { bus with memory_access_in_progress := false,
                   memory_access_type := MemoryAccessType.NoAccess }
      else bus
    else bus
  let bus := if bus.ppu.oam_dma_active then bus.process_dma_cycle else bus
  let bus :=
    (List.range 4).foldl
      (fun bus _ =>
        let (irq, bus) := bus.update_timer_cycle
        if irq then bus.request_interrupt InterruptType.Timer else bus)
      bus
  let (bus, interrupt) :=
    (List.range 4).foldl
      (fun acc _ =>
        let (bus, interrupt) := acc
        match bus.update_ppu_cycle with
        | (p, some ppu_interrupt) =>
          ({ bus with ppu := p }.request_interrupt ppu_interrupt, some ppu_interrupt)
        | (p, none) => ({ bus with ppu := p }, interrupt))
      (bus, (none : Option InterruptType))
  let bus :=
    (List.range 4).foldl
      (fun bus _ =>
        let (irq, bus) := bus.update_serial_cycle
        if irq then bus.request_interrupt InterruptType.Serial else bus)
      bus
  let bus :=
    (List.range 4).foldl
      (fun bus _ =>
        let (irq, bus) := bus.update_joypad_cycle
        if irq then bus.request_interrupt InterruptType.Joypad else bus)
      bus
  let bus := { bus with clock_m_cycles := bus.clock_m_cycles + 1 }
  (bus, interrupt)

end MemoryBus

namespace InterruptController

/-- interrupts.rs InterruptController::has_pending_interrupts. -/
def has_pending_interrupts (bus : MemoryBus) : Bool :=
  bus.get_ie &&& bus.get_if &&& 0x1F != 0

/-- interrupts.rs InterruptController::get_highest_priority_interrupt. -/
def get_highest_priority_interrupt (bus : MemoryBus) : Option InterruptType :=
  let pending := bus.get_ie &&& bus.get_if &&& 0x1F
  if pending = 0 then none
  else if pending &&& 0x01 != 0 then some InterruptType.VBlank
  else if pending &&& 0x02 != 0 then some InterruptType.LcdStat
  else if pending &&& 0x04 != 0 then some InterruptType.Timer
  else if pending &&& 0x08 != 0 then some InterruptType.Serial
  else some InterruptType.Joypad

/-- interrupts.rs InterruptController::get_interrupt_vector. -/
def get_interrupt_vector (it : InterruptType) : Nat :=
  0x0040 + it.idx * 0x08

end InterruptController

/-- Flag register as four booleans, cpu.rs struct Flags. -/
structure Flags where
  z : Bool
  n : Bool
  h : Bool
  c : Bool
deriving DecidableEq, Repr

namespace Flags

/-- cpu.rs Flags::new. -/
def new : Flags := { z := false, n := false, h := false, c := false }

/-- cpu.rs Flags::to_byte (C bit 4, H bit 5, N bit 6, Z bit 7). -/
def to_byte (f : Flags) : Nat :=
  (if f.c then 0x10 else 0) ||| (if f.h then 0x20 else 0) |||
  (if f.n then 0x40 else 0) ||| (if f.z then 0x80 else 0)

/-- cpu.rs Flags::from_byte. -/
def from_byte (byte : Nat) : Flags :=
  { c := byte &&& 0x10 != 0
    h := byte &&& 0x20 != 0
    n := byte &&& 0x40 != 0
    z := byte &&& 0x80 != 0 }

end Flags

/-- CPU state, mirroring cpu.rs struct Cpu. -/
structure Cpu where
  af : Nat
  bc : Nat
  de : Nat
  hl : Nat
  f : Flags
  sp : Nat
  pc : Nat
  halted : Bool
  ime : Bool
  pending_ime : Bool
  halt_bug : Bool
  cycle_count : Nat
deriving DecidableEq, Repr

namespace Cpu

/-- cpu.rs Cpu::reset (the post-boot register file used by Emulator::new). -/
def reset : Cpu :=
  { af := 0x01B0
    bc := 0x0013
    de := 0x00D8
    hl := 0x014D
    f := { z := true, n := false, h := true, c := true }
    sp := 0xFFFE
    pc := 0x0100
    halted := false
    ime := false
    pending_ime := false
    halt_bug := false
    cycle_count := 0 }

/-- cpu.rs Cpu::get_bc. -/
def get_bc (c : Cpu) : Nat := c.bc

/-- cpu.rs Cpu::set_bc. -/
def set_bc (c : Cpu) (value : Nat) : Cpu := { c with bc := value }

/-- cpu.rs Cpu::get_de. -/
def get_de (c : Cpu) : Nat := c.de

/-- cpu.rs Cpu::set_de. -/
def set_de (c : Cpu) (value : Nat) : Cpu := { c with de := value }

/-- cpu.rs Cpu::get_hl. -/
def get_hl (c : Cpu) : Nat := c.hl

/-- cpu.rs Cpu::set_hl. -/
def set_hl (c : Cpu) (value : Nat) : Cpu := { c with hl := value }

/-- cpu.rs Cpu::get_af. -/
def get_af (c : Cpu) : Nat := c.af

/-- cpu.rs Cpu::set_af: the low nibble of F is forced to zero both in the
flags struct and in the stored pair. -/
def set_af (c : Cpu) (value : Nat) : Cpu :=
  let fbyte := (value &&& 0x00FF) &&& 0xF0
  { c with f := Flags.from_byte fbyte, af := value &&& 0xFFF0 }

/-- cpu.rs Cpu::fetch_byte: read the byte at PC and advance PC (mod 2^16). -/
def fetch_byte (c : Cpu) (bus : MemoryBus) : Nat × Cpu × MemoryBus :=
  let (byte, bus) := bus.read_byte c.pc
  (byte, { c with pc := (c.pc + 1) % 65536 }, bus)

/-- cpu.rs Cpu::push_word: decrement SP, write the high byte, decrement SP,
write the low byte. -/
def push_word (c : Cpu) (bus : MemoryBus) (value : Nat) : Cpu × MemoryBus :=
  let c := { c with sp := (c.sp + 65535) % 65536 }
  let bus := bus.write_byte c.sp ((value >>> 8) &&& 0xFF)
  let c := { c with sp := (c.sp + 65535) % 65536 }
  let bus := bus.write_byte c.sp (value &&& 0xFF)
  (c, bus)

/-- cpu.rs Cpu::pop_word: read the low byte at SP, increment, read the high
byte, increment. -/
def pop_word (c : Cpu) (bus : MemoryBus) : Nat × Cpu × MemoryBus :=
  let (lo, bus) := bus.read_byte c.sp
  let c := { c with sp := (c.sp + 1) % 65536 }
  let (hi, bus) := bus.read_byte c.sp
  let c := { c with sp := (c.sp + 1) % 65536 }
  ((hi <<< 8) ||| lo, c, bus)

/-- The fragment of cpu.rs Cpu::execute_instruction covering the opcodes the
claims are about (NOP, the PUSH/POP pairs, the eight RST vectors, DI and EI),
each arm transcribed together with its cycle return value; opcodes outside
the fragment are rejected with none rather than misrepresented. -/
def executeInstr (opcode : Nat) (c : Cpu) (bus : MemoryBus) :
    Option (Nat × Cpu × MemoryBus) :=
  if opcode = 0x00 then some (4, c, bus)
  else if opcode = 0xC1 then
    let (value, c, bus) := pop_word c bus
    some (12, c.set_bc value, bus)
  else if opcode = 0xC5 then
    let (c, bus) := push_word c bus c.get_bc
    some (16, c, bus)
  else if opcode = 0xC7 then
    let (c, bus) := push_word c bus c.pc
    some (16, { c with pc := 0x00 }, bus)
  else if opcode = 0xCF then
    let (c, bus) := push_word c bus c.pc
    some (16, { c with pc := 0x08 }, bus)
  else if opcode = 0xD1 then
    let (value, c, bus) := pop_word c bus
    some (12, c.set_de value, bus)
  else if opcode = 0xD5 then
    let (c, bus) := push_word c bus c.get_de
    some (16, c, bus)
  else if opcode = 0xD7 then
    let (c, bus) := push_word c bus c.pc
    some (16, { c with pc := 0x10 }, bus)
  else if opcode = 0xDF then
    let (c, bus) := push_word c bus c.pc
    some (16, { c with pc := 0x18 }, bus)
  else if opcode = 0xE1 then
    let (value, c, bus) := pop_word c bus
    some (12, c.set_hl value, bus)
  else if opcode = 0xE5 then
    let (c, bus) := push_word c bus c.get_hl
    some (16, c, bus)
  else if opcode = 0xE7 then
    let (c, bus) := push_word c bus c.pc
    some (16, { c with pc := 0x20 }, bus)
  else if opcode = 0xEF then
    let (c, bus) := push_word c bus c.pc
    some (16, { c with pc := 0x28 }, bus)
  else if opcode = 0xF1 then
    let (value, c, bus) := pop_word c bus
    some (12, c.set_af value, bus)
  else if opcode = 0xF3 then
    some (4, { c with ime := false }, bus)
  else if opcode = 0xF5 then
    let (c, bus) := push_word c bus c.get_af
    some (16, c, bus)
  else if opcode = 0xF7 then
    let (c, bus) := push_word c bus c.pc
    some (16, { c with pc := 0x30 }, bus)
  else if opcode = 0xFB then
    some (4, { c with pending_ime := true }, bus)
  else if opcode = 0xFF then
    let (c, bus) := push_word c bus c.pc
    some (16, { c with pc := 0x38 }, bus)
  else none

/-- cpu.rs Cpu::step: wake or stay halted, fetch the opcode, apply the HALT
bug PC correction, execute, then apply a pending EI — in the source this
pending check runs at the end of the same call, immediately after
execute_instruction returns.  The cycle result counts t-cycles (a halted
step returns 4). -/
def step (c : Cpu) (bus : MemoryBus) : Option (Nat × Cpu × MemoryBus) :=
  if c.halted && !(InterruptController.has_pending_interrupts bus) then
    some (4, c, bus)
  else
    let c := if c.halted then { c with halted := false } else c
    let (opcode, c, bus) := fetch_byte c bus
    let c :=
      if c.halt_bug then { c with pc := (c.pc + 65535) % 65536, halt_bug := false }
      else c
    match executeInstr opcode c bus with
    | none => none
    | some (cycles, c, bus) =>
      let c :=
        if c.pending_ime then { c with ime := true, pending_ime := false } else c
      some (cycles, { c with cycle_count := c.cycle_count + cycles }, bus)

/-- cpu.rs Cpu::handle_interrupts: with IME set and a pending source, clear
IME and the IF bit, push PC, jump to the vector and charge 20 t-cycles. -/
def handle_interrupts (c : Cpu) (bus : MemoryBus) : Nat × Cpu × MemoryBus :=
  if !c.ime then (0, c, bus)
  else
    match InterruptController.get_highest_priority_interrupt bus with
    | some it =>
      let c := { c with ime := false }
      let bus := bus.clear_interrupt it
      let (c, bus) := push_word c bus c.pc
      let c := { c with pc := InterruptController.get_interrupt_vector it }
      (20, c, bus)
    | none => (0, c, bus)

end Cpu

/-! Arithmetic helper lemmas about the Nat encodings of bytes and words. -/

/-- Splitting a 16-bit value into its two bytes and recombining them is the
identity. -/
theorem recombine16 (x : Nat) (hx : x < 65536) :
    ((((x >>> 8) &&& 0xFF) <<< 8) ||| (x &&& 0xFF)) = x := by
  apply Nat.eq_of_testBit_eq
  intro i
  have h255 : (0xFF : Nat) = 2 ^ 8 - 1 := by norm_num
  simp only [Nat.testBit_or, Nat.testBit_and, Nat.testBit_shiftLeft,
    Nat.testBit_shiftRight, h255, Nat.testBit_two_pow_sub_one]
  rcases lt_or_ge i 8 with hi | hi
  · simp [Nat.not_le.mpr hi, hi]
  · rcases lt_or_ge i 16 with hi2 | hi2
    · have hn8 : ¬ i < 8 := by omega
      have h8 : 8 + (i - 8) = i := by omega
      simp [hi, hn8, h8]
      omega
    · have hxb : x.testBit i = false :=
        Nat.testBit_eq_false_of_lt (lt_of_lt_of_le hx (by
          calc (65536 : Nat) = 2 ^ 16 := by norm_num
          _ ≤ 2 ^ i := Nat.pow_le_pow_right (by norm_num) hi2))
      have hxb2 : x.testBit (8 + (i - 8)) = false := by
        have h8 : 8 + (i - 8) = i := by omega
        rw [h8, hxb]
      simp [hxb, hxb2, show ¬ i < 8 by omega]

/-- ORing in the constant 0xE0 forces bits 5-7 of the result. -/
theorem orE0_and (x : Nat) : (x ||| 0xE0) &&& 0xE0 = 0xE0 := by
  apply Nat.eq_of_testBit_eq
  intro i
  simp only [Nat.testBit_or, Nat.testBit_and]
  cases h : Nat.testBit 0xE0 i <;> simp

/-- ORing in a value with clear bits 5-7 leaves bits 5-7 unchanged. -/
theorem or_low_and (x b : Nat) (hb : b &&& 0xE0 = 0) :
    (x ||| b) &&& 0xE0 = x &&& 0xE0 := by
  apply Nat.eq_of_testBit_eq
  intro i
  have hbi : (b.testBit i && Nat.testBit 0xE0 i) = false := by
    have h2 := congrArg (fun n => n.testBit i) hb
    simp only [Nat.testBit_and, Nat.zero_testBit] at h2
    exact h2
  simp only [Nat.testBit_or, Nat.testBit_and]
  cases h : Nat.testBit 0xE0 i
  · simp
  · rw [h] at hbi
    simp only [Bool.and_true] at hbi
    simp [hbi]

/-- ANDing with a mask whose bits 5-7 are set leaves bits 5-7 unchanged. -/
theorem and_keep_and (x b : Nat) (hb : b &&& 0xE0 = 0xE0) :
    (x &&& b) &&& 0xE0 = x &&& 0xE0 := by
  apply Nat.eq_of_testBit_eq
  intro i
  have hbi := congrArg (fun n => n.testBit i) hb
  simp only [Nat.testBit_and] at hbi
  cases h : Nat.testBit 0xE0 i
  · simp [h]
  · rw [h] at hbi
    simp only [Bool.and_true] at hbi
    simp [Nat.testBit_and, hbi, h]

/-! Concrete machine configurations used by the individual claims. -/

/-- A fresh bus (empty ROM) right after a write of 0xC0 to the DMA register
0xFF46: the OAM DMA transfer from page 0xC000 is active and the CPU is inside
the 160 m-cycle lockout window (no bus tick has happened yet). -/
def dmaBusStart : MemoryBus := (MemoryBus.new []).write_byte 0xFF46 0xC0

/-- The same bus immediately after the CPU additionally performed a single
read of the HRAM address 0xFF80 — still inside the lockout window. -/
def dmaBusAfterHram : MemoryBus := (dmaBusStart.read_byte 0xFF80).2

/-- CPU state about to execute the byte at 0xC000, with interrupts disabled
and no EI pending. -/
def eiCpu : Cpu := { Cpu.reset with pc := 0xC000 }

/-- A bus whose WRAM holds the EI opcode (0xFB) at 0xC000. -/
def eiBus : MemoryBus := (MemoryBus.new []).write_byte 0xC000 0xFB

/-- PPU at the last dot of the HBlank of scanline 143 with the STAT
mode-1 (VBlank) interrupt enable bit set (STAT = 0x10): the next t-cycle
crosses into VBlank. -/
def vblankPpuStatOn : Ppu :=
  { Ppu.new with lcdc := 0x91, mode := LcdMode.HBlank, mode_cycles := 203,
                 ly := 143, lyc := 0, stat := 0x10, scanline_sprites := [] }

/-- The same PPU state with all STAT interrupt enables clear. -/
def vblankPpuStatOff : Ppu := { vblankPpuStatOn with stat := 0 }

/-- Eleven sprites visible on scanline 0 (y = 16): OAM indices 0-9 at X = 20
and index 10 at X = 5; all other OAM slots empty. -/
def elevenSprites : Nat → OamEntry := fun i =>
  if i = 10 then { y_pos := 16, x_pos := 5, tile_idx := 0, attributes := 0 }
  else if i < 10 then { y_pos := 16, x_pos := 20, tile_idx := 0, attributes := 0 }
  else OamEntry.new

/-- PPU with sprites enabled (8x8) on scanline 0 over the elevenSprites OAM. -/
def elevenSpritesPpu : Ppu :=
  { Ppu.new with lcdc := 0x02, ly := 0, oam_entries := elevenSprites }

/-- Timer state one t-cycle before a falling edge of the selected-bit AND
enable signal that overflows TIMA: TAC = 0x05 selects DIV bit 3 with the
timer enabled, the counter is 15 (bit 3 high, about to drop on increment to
16), and TIMA = 0xFF. -/
def overflowTimer : Timer :=
  { div_counter := 15, tima := 0xFF, tma := 0xAB, tac := 0x05,
    previous_and_result := true, tima_overflow := false,
    tima_overflow_cycles := 0, queued_tima_write := none }

/-- Timer state inside the TIMA overflow-reload window whose selected DIV
bit (bit 9, TAC = 0x04) is high with the timer enabled. -/
def overflowWindowTimer : Timer :=
  { div_counter := 0x200, tima := 0, tma := 0x42, tac := 0x04,
    previous_and_result := true, tima_overflow := true,
    tima_overflow_cycles := 1, queued_tima_write := none }

/-- Timer state for the DIV-write witness: DIV bit 9 high, timer enabled,
TIMA at 0xFF, not in the overflow window. -/
def divWriteTimer : Timer :=
  { div_counter := 0x200, tima := 0xFF, tma := 0, tac := 0x04,
    previous_and_result := true, tima_overflow := false,
    tima_overflow_cycles := 0, queued_tima_write := none }

/-- Addresses backed by plain always-writable RAM: WRAM (0xC000-0xDFFF) or
HRAM (0xFF80-0xFFFE). -/
def ramAddr (a : Nat) : Prop :=
  (0xC000 ≤ a ∧ a ≤ 0xDFFF) ∨ (0xFF80 ≤ a ∧ a ≤ 0xFFFE)

instance (a : Nat) : Decidable (ramAddr a) := by
  unfold ramAddr
  infer_instance

/-- The byte a non-blocked CPU read returns at a RAM address (WRAM for
addresses up to 0xDFFF, HRAM above). -/
def MemoryBus.ramVal (bus : MemoryBus) (a : Nat) : Nat :=
  if a ≤ 0xDFFF then bus.wram (a - 0xC000) else bus.hram (a - 0xFF80)

/-! Supporting lemmas about single bus operations. -/

/-- A TAC write stores the value masked to bits 0-2 on every path through
Timer::set_tac. -/
theorem Timer.set_tac_tac (t : Timer) (v : Nat) : (t.set_tac v).tac = v &&& 0x07 := by
  unfold Timer.set_tac
  dsimp only
  split
  · split
    · split
      · split <;> rfl
      · rfl
    · rfl
  · rfl

/-- A bus write to 0xFF07 outside DMA blocking reaches Timer::set_tac and
marks the access as a CPU write. -/
theorem write_byte_ff07 (bus : MemoryBus) (v : Nat)
    (hdma : bus.memory_access_type ≠ MemoryAccessType.DMA) :
    (bus.write_byte 0xFF07 v).timer = bus.timer.set_tac v ∧
    (bus.write_byte 0xFF07 v).memory_access_type = MemoryAccessType.Write := by
  simp [MemoryBus.write_byte, MemoryBus.write_io_reg, hdma]

/-- A bus read of 0xFF07 outside DMA blocking returns Timer::get_tac. -/
theorem read_byte_ff07 (bus : MemoryBus)
    (hdma : bus.memory_access_type ≠ MemoryAccessType.DMA) :
    (bus.read_byte 0xFF07).1 = bus.timer.get_tac := by
  simp [MemoryBus.read_byte, MemoryBus.read_io_reg, hdma]

/-! The claims. -/

/-- C1.  The claim states that during all 160 m-cycles of an active OAM DMA
every CPU access outside HRAM reads 0xFF/discards writes, even when HRAM
accesses occur in between.  The code violates this: a single HRAM read during
the transfer overwrites the bus's memory_access_type from DMA to Read, which
permanently cancels the lockout while the transfer is still running.
Concretely, after writing 0xC0 to 0xFF46 (no bus tick has happened yet, so we
are inside the window) the blocked read of 0xC000 does return 0xFF, but after
one intervening HRAM read of 0xFF80 the same read returns the WRAM byte 0x00
although the transfer is still active. -/
theorem c1_hram_access_cancels_dma_lockout :
    dmaBusStart.ppu.oam_dma_active = true ∧
    dmaBusStart.memory_access_type = MemoryAccessType.DMA ∧
    (dmaBusStart.read_byte 0xC000).1 = 0xFF ∧
    dmaBusAfterHram.ppu.oam_dma_active = true ∧
    dmaBusAfterHram.memory_access_type = MemoryAccessType.Read ∧
    (dmaBusAfterHram.read_byte 0xC000).1 = 0x00 ∧
    (dmaBusAfterHram.read_byte 0xC000).1 ≠ 0xFF := by
  refine ⟨by decide, by decide, by decide, by decide, by decide, by decide, by decide⟩

/-- C2.  The claim states that after EI, IME is still false when the next
instruction begins and becomes true only after that instruction completes.
The code violates this: Cpu::step applies the pending-IME flag at the end of
the same step call that executed EI, so IME is already true before the
following instruction (and an interrupt can be serviced between EI and a
following DI).  Concretely, stepping a CPU with IME = false over the EI
opcode at 0xC000 yields IME = true immediately. -/
theorem c2_ei_enables_ime_within_its_own_step :
    eiCpu.ime = false ∧
    (Cpu.step eiCpu eiBus).map (fun r => r.2.1.ime) = some true ∧
    (Cpu.step eiCpu eiBus).map (fun r => r.2.1.pending_ime) = some false := by
  refine ⟨by decide, by decide, by decide⟩

/-- C3.  The claim states that on the LY 143 to 144 transition a VBlank
interrupt is requested regardless of the STAT interrupt-enable bits.  The
code violates this: in the HBlank arm of Ppu::update the STAT-VBlank branch
overwrites the single interrupt return slot, so with STAT bit 4 set the
transition returns LcdStat instead of VBlank and IF bit 0 is never set (and
that frame requests no VBlank interrupt at all).  With STAT bit 4 clear the
transition does return VBlank. -/
theorem c3_stat_enable_overwrites_vblank_request :
    (vblankPpuStatOn.update 1).1.ly = 144 ∧
    (vblankPpuStatOn.update 1).1.mode = LcdMode.VBlank ∧
    (vblankPpuStatOn.update 1).2 = some InterruptType.LcdStat ∧
    (vblankPpuStatOn.update 1).2 ≠ some InterruptType.VBlank ∧
    (vblankPpuStatOff.update 1).2 = some InterruptType.VBlank := by
  refine ⟨by decide, by decide, by decide, by decide, by decide⟩

/-- C4.  The claim states the per-scanline sprite list consists of the first
at most 10 sprites in OAM index order whose y puts them on the line,
independent of X.  The code violates this: Ppu::prepare_sprites_for_scanline
sorts all matching sprites by (X, index) first and truncates to 10 only
afterwards, so with eleven matching sprites the kept set is the ten with the
lowest X, not the first ten indices.  Concretely, with sprites 0-9 at X = 20
and sprite 10 at X = 5, all eleven on the line, the produced list contains
index 10 and drops index 9 (the claim requires exactly indices 0-9). -/
theorem c4_sprite_limit_truncates_after_x_sort :
    ((List.range 11).all fun i => (elevenSprites i).is_on_scanline 0 8) = true ∧
    (elevenSpritesPpu.prepare_sprites_for_scanline).scanline_sprites.map Prod.fst
      = [8, 7, 6, 5, 4, 3, 2, 1, 0, 10] ∧
    10 ∈ (elevenSpritesPpu.prepare_sprites_for_scanline).scanline_sprites.map Prod.fst ∧
    9 ∉ (elevenSpritesPpu.prepare_sprites_for_scanline).scanline_sprites.map Prod.fst := by
  refine ⟨by decide, by decide, by decide, by decide⟩

/-- During the TIMA overflow-reload window (before its 4th cycle) one timer
t-cycle advances the countdown, keeps TIMA at 0 and requests no interrupt. -/
theorem update_cycle_window_step (t : Timer) (hov : t.tima_overflow = true)
    (hc : t.tima_overflow_cycles + 1 ≠ 4) :
    t.update_cycle.1 = false ∧
    t.update_cycle.2.tima = 0 ∧
    t.update_cycle.2.tima_overflow = true ∧
    t.update_cycle.2.tima_overflow_cycles = t.tima_overflow_cycles + 1 ∧
    t.update_cycle.2.tma = t.tma ∧
    t.update_cycle.2.queued_tima_write = t.queued_tima_write := by
  have hc3 : t.tima_overflow_cycles ≠ 3 := by omega
  unfold Timer.update_cycle
  dsimp only
  simp only [hov]
  split
  · simp [hc3]
  · simp [hc3]

/-- The 4th cycle of the overflow window reloads TIMA from TMA, applies a
queued write over the reload, clears the overflow state and requests a Timer
interrupt. -/
theorem update_cycle_reload_step (t : Timer) (hov : t.tima_overflow = true)
    (hc : t.tima_overflow_cycles = 3) :
    t.update_cycle.1 = true ∧
    t.update_cycle.2.tima = (match t.queued_tima_write with
      | some v => v
      | none => t.tma) ∧
    t.update_cycle.2.tima_overflow = false ∧
    t.update_cycle.2.queued_tima_write = none := by
  unfold Timer.update_cycle
  dsimp only
  simp only [hov, hc]
  split
  · cases hq : t.queued_tima_write <;> simp [hq]
  · cases hq : t.queued_tima_write <;> simp [hq]

/-- A falling edge of the selected-bit AND enable signal with TIMA at 0xFF
opens the overflow window: TIMA drops to 0 and the countdown starts at 1. -/
theorem update_cycle_overflow_start (s : Timer)
    (h1 : s.tima = 0xFF) (h2 : s.previous_and_result = true)
    (h3 : (((s.div_counter + 1) % 65536) &&& (1 <<< Timer.bitPosition s.tac) != 0
            && (s.tac &&& 0x04 != 0)) = false)
    (h4 : s.tima_overflow = false) :
    s.update_cycle.1 = false ∧
    s.update_cycle.2.tima = 0 ∧
    s.update_cycle.2.tima_overflow = true ∧
    s.update_cycle.2.tima_overflow_cycles = 1 ∧
    s.update_cycle.2.tma = s.tma ∧
    s.update_cycle.2.queued_tima_write = s.queued_tima_write := by
  unfold Timer.update_cycle
  dsimp only
  simp [h1, h2, h3, h4]

/-- Inside the overflow window a TIMA write is queued and changes nothing
else. -/
theorem set_tima_during_overflow (t : Timer) (v : Nat) (hov : t.tima_overflow = true) :
    (t.set_tima v).tima = t.tima ∧
    (t.set_tima v).tima_overflow = true ∧
    (t.set_tima v).tima_overflow_cycles = t.tima_overflow_cycles ∧
    (t.set_tima v).tma = t.tma ∧
    (t.set_tima v).queued_tima_write = some v := by
  unfold Timer.set_tima
  simp [hov]

/-- C5.  When a falling-edge increment carries TIMA from 0xFF to 0x00 (the
hypotheses describe exactly the falling edge computed by Timer::update_cycle:
previous AND-result high, new AND-result low, TIMA at 0xFF, not already in
the window), TIMA reads 0 after each of the window's first three t-cycles;
the 4th t-cycle reloads TIMA from TMA and requests the Timer interrupt; and a
TIMA write performed during the window (shown both right after the first
cycle and right before the 4th) is not applied immediately but lands after
the reload, overriding the reloaded value. -/
theorem c5_tima_overflow_window (s : Timer) (v : Nat)
    (h1 : s.tima = 0xFF) (h2 : s.previous_and_result = true)
    (h3 : (((s.div_counter + 1) % 65536) &&& (1 <<< Timer.bitPosition s.tac) != 0
            && (s.tac &&& 0x04 != 0)) = false)
    (h4 : s.tima_overflow = false)
    (h5 : s.queued_tima_write = none) :
    s.update_cycle.2.get_tima = 0 ∧
    s.update_cycle.2.update_cycle.2.get_tima = 0 ∧
    s.update_cycle.2.update_cycle.2.update_cycle.2.get_tima = 0 ∧
    s.update_cycle.2.update_cycle.2.update_cycle.2.update_cycle.1 = true ∧
    s.update_cycle.2.update_cycle.2.update_cycle.2.update_cycle.2.get_tima = s.tma ∧
    (s.update_cycle.2.set_tima v).get_tima = 0 ∧
    ((s.update_cycle.2.set_tima v).update_cycle.2.update_cycle.2.update_cycle.1 = true ∧
     (s.update_cycle.2.set_tima v).update_cycle.2.update_cycle.2.update_cycle.2.get_tima = v) ∧
    ((s.update_cycle.2.update_cycle.2.update_cycle.2.set_tima v).update_cycle.1 = true ∧
     (s.update_cycle.2.update_cycle.2.update_cycle.2.set_tima v).update_cycle.2.get_tima = v) := by
  obtain ⟨e0, e1, e2, e3, e4, e5⟩ := update_cycle_overflow_start s h1 h2 h3 h4
  have w1 := update_cycle_window_step s.update_cycle.2 e2 (by rw [e3]; omega)
  have w2 := update_cycle_window_step s.update_cycle.2.update_cycle.2 w1.2.2.1
    (by rw [w1.2.2.2.1, e3]; omega)
  have hc3 : s.update_cycle.2.update_cycle.2.update_cycle.2.tima_overflow_cycles = 3 := by
    rw [w2.2.2.2.1, w1.2.2.2.1, e3]
  have r := update_cycle_reload_step _ w2.2.2.1 hc3
  have hq3 : s.update_cycle.2.update_cycle.2.update_cycle.2.queued_tima_write = none := by
    rw [w2.2.2.2.2.2, w1.2.2.2.2.2, e5, h5]
  have htma3 : s.update_cycle.2.update_cycle.2.update_cycle.2.tma = s.tma := by
    rw [w2.2.2.2.2.1, w1.2.2.2.2.1, e4]
  have d1 := set_tima_during_overflow s.update_cycle.2 v e2
  have dw1 := update_cycle_window_step (s.update_cycle.2.set_tima v) d1.2.1
    (by rw [d1.2.2.1, e3]; omega)
  have dw2 := update_cycle_window_step (s.update_cycle.2.set_tima v).update_cycle.2
    dw1.2.2.1 (by rw [dw1.2.2.2.1, d1.2.2.1, e3]; omega)
  have dc3 : (s.update_cycle.2.set_tima v).update_cycle.2.update_cycle.2.tima_overflow_cycles
      = 3 := by
    rw [dw2.2.2.2.1, dw1.2.2.2.1, d1.2.2.1, e3]
  have dr := update_cycle_reload_step _ dw2.2.2.1 dc3
  have dq : (s.update_cycle.2.set_tima v).update_cycle.2.update_cycle.2.queued_tima_write
      = some v := by
    rw [dw2.2.2.2.2.2, dw1.2.2.2.2.2, d1.2.2.2.2]
  have d3 := set_tima_during_overflow s.update_cycle.2.update_cycle.2.update_cycle.2 v w2.2.2.1
  have dc3b : (s.update_cycle.2.update_cycle.2.update_cycle.2.set_tima v).tima_overflow_cycles
      = 3 := by
    rw [d3.2.2.1, hc3]
  have dr3 := update_cycle_reload_step _ d3.2.1 dc3b
  refine ⟨e1, ?_, ?_, ?_, ?_, ?_, ⟨?_, ?_⟩, ⟨?_, ?_⟩⟩
  · exact w1.2.1
  · exact w2.2.1
  · exact r.1
  · show s.update_cycle.2.update_cycle.2.update_cycle.2.update_cycle.2.tima = s.tma
    rw [r.2.1, hq3, htma3]
  · show (s.update_cycle.2.set_tima v).tima = 0
    rw [d1.1, e1]
  · exact dr.1
  · show (s.update_cycle.2.set_tima v).update_cycle.2.update_cycle.2.update_cycle.2.tima = v
    rw [dr.2.1, dq]
  · exact dr3.1
  · show (s.update_cycle.2.update_cycle.2.update_cycle.2.set_tima v).update_cycle.2.tima = v
    rw [dr3.2.1, d3.2.2.2.2]

/-- C5 witness: the overflow-window theorem applied to the concrete timer
overflowTimer (TAC 0x05, counter 15, TIMA 0xFF, TMA 0xAB) and write value
0x77. -/
theorem c5_tima_overflow_window_witness :
    overflowTimer.update_cycle.2.get_tima = 0 ∧
    overflowTimer.update_cycle.2.update_cycle.2.get_tima = 0 ∧
    overflowTimer.update_cycle.2.update_cycle.2.update_cycle.2.get_tima = 0 ∧
    overflowTimer.update_cycle.2.update_cycle.2.update_cycle.2.update_cycle.1 = true ∧
    overflowTimer.update_cycle.2.update_cycle.2.update_cycle.2.update_cycle.2.get_tima
      = overflowTimer.tma ∧
    (overflowTimer.update_cycle.2.set_tima 0x77).get_tima = 0 ∧
    ((overflowTimer.update_cycle.2.set_tima
        0x77).update_cycle.2.update_cycle.2.update_cycle.1 = true ∧
     (overflowTimer.update_cycle.2.set_tima
        0x77).update_cycle.2.update_cycle.2.update_cycle.2.get_tima = 0x77) ∧
    ((overflowTimer.update_cycle.2.update_cycle.2.update_cycle.2.set_tima
        0x77).update_cycle.1 = true ∧
     (overflowTimer.update_cycle.2.update_cycle.2.update_cycle.2.set_tima
        0x77).update_cycle.2.get_tima = 0x77) :=
  c5_tima_overflow_window overflowTimer 0x77 (by decide) (by decide) (by decide)
    (by decide) (by decide)

/-- C6 counterexample.  The claim asserts that for every timer state a DIV
write increments TIMA whenever the selected counter bit and the enable bit
are both 1; in the overflow-window state overflowWindowTimer (bit 9 high,
timer enabled, tima_overflow set) the write resets the counter but leaves
TIMA unchanged, because Timer::set_div suppresses the edge increment while
tima_overflow is set. -/
theorem c6_overflow_window_suppresses_div_edge :
    (overflowWindowTimer.div_counter &&&
        (1 <<< Timer.bitPosition overflowWindowTimer.tac) != 0) = true ∧
    (overflowWindowTimer.tac &&& 0x04 != 0) = true ∧
    (overflowWindowTimer.set_div 0).div_counter = 0 ∧
    (overflowWindowTimer.set_div 0).tima = overflowWindowTimer.tima ∧
    (overflowWindowTimer.set_div 0).tima ≠ (overflowWindowTimer.tima + 1) % 256 := by
  refine ⟨by decide, by decide, by decide, by decide, by decide⟩

/-- C6 as amended: every DIV write zeroes the internal 16-bit counter, and
when the timer is not inside the TIMA overflow-reload window, a write made
while the selected counter bit and the enable bit are both 1 increments TIMA
(entering the overflow state if TIMA was 0xFF). -/
theorem c6_div_write_edge (t : Timer) (v : Nat) :
    (t.set_div v).div_counter = 0 ∧
    (t.tima_overflow = false →
      (t.div_counter &&& (1 <<< Timer.bitPosition t.tac) != 0) = true →
      (t.tac &&& 0x04 != 0) = true →
      (t.set_div v).tima = (t.tima + 1) % 256 ∧
      (t.tima = 0xFF → (t.set_div v).tima_overflow = true)) := by
  constructor
  · unfold Timer.set_div
    dsimp only
    split
    · split
      · split <;> rfl
      · rfl
    · rfl
  · intro hov hbit hen
    unfold Timer.set_div
    dsimp only
    by_cases ht : t.tima = 255
    · simp [hbit, hen, hov, ht]
    · simp [hbit, hen, hov, ht]

/-- C6 witness: the amended theorem applied to the concrete state
divWriteTimer (bit 9 high, timer enabled, TIMA 0xFF, outside the window). -/
theorem c6_div_write_edge_witness :
    (divWriteTimer.set_div 7).div_counter = 0 ∧
    (divWriteTimer.set_div 7).tima = (divWriteTimer.tima + 1) % 256 ∧
    (divWriteTimer.set_div 7).tima_overflow = true :=
  have h := c6_div_write_edge divWriteTimer 7
  ⟨h.1, (h.2 (by decide) (by decide) (by decide)).1,
    (h.2 (by decide) (by decide) (by decide)).2 (by decide)⟩

/-- C9 counterexample.  The claim states PUSH rr costs 5 m-cycles as reported
by the instruction; executed on the post-boot CPU state over a fresh bus,
PUSH AF (0xF5) reports 16 and POP AF (0xF1) reports 12, not 5 and 3. -/
theorem c9_push_reports_sixteen_not_five :
    (Cpu.executeInstr 0xF5 Cpu.reset (MemoryBus.new [])).map Prod.fst = some 16 ∧
    (Cpu.executeInstr 0xF5 Cpu.reset (MemoryBus.new [])).map Prod.fst ≠ some 5 ∧
    (Cpu.executeInstr 0xFF Cpu.reset (MemoryBus.new [])).map Prod.fst = some 16 ∧
    (Cpu.executeInstr 0xFF Cpu.reset (MemoryBus.new [])).map Prod.fst ≠ some 5 ∧
    (Cpu.executeInstr 0xF1 Cpu.reset (MemoryBus.new [])).map Prod.fst = some 12 ∧
    (Cpu.executeInstr 0xF1 Cpu.reset (MemoryBus.new [])).map Prod.fst ≠ some 3 := by
  refine ⟨by decide, by decide, by decide, by decide, by decide, by decide⟩

/-- C9 as amended: for every machine state the PUSH handlers report 16
cycles, every RST handler reports 16, and the POP handlers report 12 (the
source's counts are t-cycles; the scheduler loop ticks the bus once per
reported unit). -/
theorem c9_push_pop_rst_reported_costs (c : Cpu) (bus : MemoryBus) :
    (Cpu.executeInstr 0xC5 c bus).map Prod.fst = some 16 ∧
    (Cpu.executeInstr 0xD5 c bus).map Prod.fst = some 16 ∧
    (Cpu.executeInstr 0xE5 c bus).map Prod.fst = some 16 ∧
    (Cpu.executeInstr 0xF5 c bus).map Prod.fst = some 16 ∧
    (Cpu.executeInstr 0xC7 c bus).map Prod.fst = some 16 ∧
    (Cpu.executeInstr 0xCF c bus).map Prod.fst = some 16 ∧
    (Cpu.executeInstr 0xD7 c bus).map Prod.fst = some 16 ∧
    (Cpu.executeInstr 0xDF c bus).map Prod.fst = some 16 ∧
    (Cpu.executeInstr 0xE7 c bus).map Prod.fst = some 16 ∧
    (Cpu.executeInstr 0xEF c bus).map Prod.fst = some 16 ∧
    (Cpu.executeInstr 0xF7 c bus).map Prod.fst = some 16 ∧
    (Cpu.executeInstr 0xFF c bus).map Prod.fst = some 16 ∧
    (Cpu.executeInstr 0xC1 c bus).map Prod.fst = some 12 ∧
    (Cpu.executeInstr 0xD1 c bus).map Prod.fst = some 12 ∧
    (Cpu.executeInstr 0xE1 c bus).map Prod.fst = some 12 ∧
    (Cpu.executeInstr 0xF1 c bus).map Prod.fst = some 12 := by
  refine ⟨rfl, rfl, rfl, rfl, rfl, rfl, rfl, rfl, rfl, rfl, rfl, rfl, rfl, rfl, rfl, rfl⟩

/-- C10.  Writing any byte to TAC (0xFF07) through the bus stores only the
low three bits, a subsequent read returns v AND 0x07 (bits 3-7 clear), and
before any write TAC reads back as its reset value 0xF8. -/
theorem c10_tac_write_masked_read (bus : MemoryBus) (v : Nat) (rom : List Nat)
    (hdma : bus.memory_access_type ≠ MemoryAccessType.DMA) :
    (bus.write_byte 0xFF07 v).timer.tac = v &&& 0x07 ∧
    ((bus.write_byte 0xFF07 v).read_byte 0xFF07).1 = v &&& 0x07 ∧
    (v &&& 0x07) &&& 0xF8 = 0 ∧
    ((MemoryBus.new rom).read_byte 0xFF07).1 = 0xF8 := by
  have hw := write_byte_ff07 bus v hdma
  have hw2 : (bus.write_byte 0xFF07 v).memory_access_type ≠ MemoryAccessType.DMA := by
    rw [hw.2]; intro h; cases h
  refine ⟨?_, ?_, ?_, ?_⟩
  · rw [hw.1]; exact Timer.set_tac_tac bus.timer v
  · rw [read_byte_ff07 _ hw2, hw.1]
    show (bus.timer.set_tac v).tac = v &&& 0x07
    exact Timer.set_tac_tac bus.timer v
  · rw [Nat.and_assoc, show (7 : Nat) &&& 248 = 0 from by decide, Nat.and_zero]
  · have hn : (MemoryBus.new rom).memory_access_type ≠ MemoryAccessType.DMA := by
      intro h; cases h
    rw [read_byte_ff07 _ hn]
    rfl

/-- C10 witness: the theorem applied to a fresh bus and the value 0xFF. -/
theorem c10_tac_write_masked_read_witness :
    ((MemoryBus.new []).write_byte 0xFF07 0xFF).timer.tac = 0xFF &&& 0x07 ∧
    (((MemoryBus.new []).write_byte 0xFF07 0xFF).read_byte 0xFF07).1 = 0xFF &&& 0x07 ∧
    (0xFF &&& 0x07) &&& 0xF8 = 0 ∧
    ((MemoryBus.new []).read_byte 0xFF07).1 = 0xF8 :=
  c10_tac_write_masked_read (MemoryBus.new []) 0xFF [] (by decide)

/-- A non-blocked bus write to a WRAM address updates only the WRAM cell and
the access-tracking fields. -/
theorem write_byte_wram_eq (bus : MemoryBus) (a v : Nat)
    (ha1 : 0xC000 ≤ a) (ha2 : a ≤ 0xDFFF)
    (hdma : bus.memory_access_type ≠ MemoryAccessType.DMA) :
    bus.write_byte a v =
      { bus with wram := fun i => if i = a - 0xC000 then v else bus.wram i,
                 memory_access_in_progress := true,
                 memory_access_type := MemoryAccessType.Write,
                 memory_access_address := a,
                 memory_access_value := some v,
                 memory_access_cycles_remaining := 1 } := by
  have g0 : ¬(bus.memory_access_type = MemoryAccessType.DMA
      ∧ ¬(0xFF80 ≤ a ∧ a ≤ 0xFFFE)) := fun h => hdma h.1
  unfold MemoryBus.write_byte
  rw [if_neg g0]
  dsimp only
  rw [if_neg (by omega : ¬ a ≤ 0x7FFF), if_neg (by omega : ¬ a ≤ 0x9FFF),
    if_neg (by omega : ¬ a ≤ 0xBFFF), if_pos (by omega : a ≤ 0xDFFF)]

/-- A bus write to an HRAM address (never DMA-blocked) updates only the HRAM
cell and the access-tracking fields. -/
theorem write_byte_hram_eq (bus : MemoryBus) (a v : Nat)
    (ha1 : 0xFF80 ≤ a) (ha2 : a ≤ 0xFFFE) :
    bus.write_byte a v =
      { bus with hram := fun i => if i = a - 0xFF80 then v else bus.hram i,
                 memory_access_in_progress := true,
                 memory_access_type := MemoryAccessType.Write,
                 memory_access_address := a,
                 memory_access_value := some v,
                 memory_access_cycles_remaining := 1 } := by
  have g0 : ¬(bus.memory_access_type = MemoryAccessType.DMA
      ∧ ¬(0xFF80 ≤ a ∧ a ≤ 0xFFFE)) := fun h => h.2 ⟨ha1, ha2⟩
  unfold MemoryBus.write_byte
  rw [if_neg g0]
  dsimp only
  rw [if_neg (by omega : ¬ a ≤ 0x7FFF), if_neg (by omega : ¬ a ≤ 0x9FFF),
    if_neg (by omega : ¬ a ≤ 0xBFFF), if_neg (by omega : ¬ a ≤ 0xDFFF),
    if_neg (by omega : ¬ a ≤ 0xFDFF), if_neg (by omega : ¬ a ≤ 0xFE9F),
    if_neg (by omega : ¬ (0xFF00 ≤ a ∧ a ≤ 0xFF7F)),
    if_pos (show 0xFF80 ≤ a ∧ a ≤ 0xFFFE from ⟨ha1, ha2⟩)]

/-- A non-blocked bus read of a WRAM address returns the WRAM cell and only
touches the access-tracking fields. -/
theorem read_byte_wram_eq (bus : MemoryBus) (a : Nat)
    (ha1 : 0xC000 ≤ a) (ha2 : a ≤ 0xDFFF)
    (hdma : bus.memory_access_type ≠ MemoryAccessType.DMA) :
    bus.read_byte a =
      (bus.wram (a - 0xC000),
       { bus with memory_access_in_progress := true,
                  memory_access_type := MemoryAccessType.Read,
                  memory_access_address := a,
                  memory_access_cycles_remaining := 1 }) := by
  have g0 : ¬(bus.memory_access_type = MemoryAccessType.DMA
      ∧ ¬(0xFF80 ≤ a ∧ a ≤ 0xFFFE)) := fun h => hdma h.1
  unfold MemoryBus.read_byte
  rw [if_neg g0]
  dsimp only
  rw [if_neg (by omega : ¬ a ≤ 0x3FFF), if_neg (by omega : ¬ a ≤ 0x7FFF),
    if_neg (by omega : ¬ a ≤ 0x9FFF), if_neg (by omega : ¬ a ≤ 0xBFFF),
    if_pos (by omega : a ≤ 0xDFFF)]

/-- A bus read of an HRAM address (never DMA-blocked) returns the HRAM cell
and only touches the access-tracking fields. -/
theorem read_byte_hram_eq (bus : MemoryBus) (a : Nat)
    (ha1 : 0xFF80 ≤ a) (ha2 : a ≤ 0xFFFE) :
    bus.read_byte a =
      (bus.hram (a - 0xFF80),
       { bus with memory_access_in_progress := true,
                  memory_access_type := MemoryAccessType.Read,
                  memory_access_address := a,
                  memory_access_cycles_remaining := 1 }) := by
  have g0 : ¬(bus.memory_access_type = MemoryAccessType.DMA
      ∧ ¬(0xFF80 ≤ a ∧ a ≤ 0xFFFE)) := fun h => h.2 ⟨ha1, ha2⟩
  unfold MemoryBus.read_byte
  rw [if_neg g0]
  dsimp only
  rw [if_neg (by omega : ¬ a ≤ 0x3FFF), if_neg (by omega : ¬ a ≤ 0x7FFF),
    if_neg (by omega : ¬ a ≤ 0x9FFF), if_neg (by omega : ¬ a ≤ 0xBFFF),
    if_neg (by omega : ¬ a ≤ 0xDFFF), if_neg (by omega : ¬ a ≤ 0xFDFF),
    if_neg (by omega : ¬ a ≤ 0xFE9F),
    if_neg (by omega : ¬ (0xFF00 ≤ a ∧ a ≤ 0xFF7F)),
    if_pos (show 0xFF80 ≤ a ∧ a ≤ 0xFFFE from ⟨ha1, ha2⟩)]

/-- A non-blocked write at a RAM address marks a CPU write access and updates
the RAM view at exactly that address. -/
theorem write_byte_ramVal (bus : MemoryBus) (a v : Nat) (ha : ramAddr a)
    (hdma : bus.memory_access_type ≠ MemoryAccessType.DMA) :
    (bus.write_byte a v).memory_access_type = MemoryAccessType.Write ∧
    ∀ b, ramAddr b →
      (bus.write_byte a v).ramVal b = if b = a then v else bus.ramVal b := by
  rcases ha with ⟨ha1, ha2⟩ | ⟨ha1, ha2⟩
  · rw [write_byte_wram_eq bus a v ha1 ha2 hdma]
    refine ⟨rfl, ?_⟩
    intro b hb
    rcases hb with ⟨hb1, hb2⟩ | ⟨hb1, hb2⟩
    · unfold MemoryBus.ramVal
      dsimp only
      rw [if_pos (by omega : b ≤ 0xDFFF), if_pos (by omega : b ≤ 0xDFFF)]
      by_cases hba : b = a
      · subst hba
        simp
      · rw [if_neg (by omega : ¬ b - 0xC000 = a - 0xC000), if_neg hba]
    · unfold MemoryBus.ramVal
      dsimp only
      rw [if_neg (by omega : ¬ b ≤ 0xDFFF), if_neg (by omega : ¬ b ≤ 0xDFFF),
        if_neg (by omega : ¬ b = a)]
  · rw [write_byte_hram_eq bus a v ha1 ha2]
    refine ⟨rfl, ?_⟩
    intro b hb
    rcases hb with ⟨hb1, hb2⟩ | ⟨hb1, hb2⟩
    · unfold MemoryBus.ramVal
      dsimp only
      rw [if_pos (by omega : b ≤ 0xDFFF), if_pos (by omega : b ≤ 0xDFFF),
        if_neg (by omega : ¬ b = a)]
    · unfold MemoryBus.ramVal
      dsimp only
      rw [if_neg (by omega : ¬ b ≤ 0xDFFF), if_neg (by omega : ¬ b ≤ 0xDFFF)]
      by_cases hba : b = a
      · subst hba
        simp
      · rw [if_neg (by omega : ¬ b - 0xFF80 = a - 0xFF80), if_neg hba]

/-- A non-blocked read at a RAM address returns the RAM view there, marks a
CPU read access and preserves the whole RAM view. -/
theorem read_byte_ramVal (bus : MemoryBus) (a : Nat) (ha : ramAddr a)
    (hdma : bus.memory_access_type ≠ MemoryAccessType.DMA) :
    (bus.read_byte a).1 = bus.ramVal a ∧
    (bus.read_byte a).2.memory_access_type = MemoryAccessType.Read ∧
    ∀ b, (bus.read_byte a).2.ramVal b = bus.ramVal b := by
  rcases ha with ⟨ha1, ha2⟩ | ⟨ha1, ha2⟩
  · rw [read_byte_wram_eq bus a ha1 ha2 hdma]
    refine ⟨?_, rfl, fun b => rfl⟩
    unfold MemoryBus.ramVal
    dsimp only
    rw [if_pos (by omega : a ≤ 0xDFFF)]
  · rw [read_byte_hram_eq bus a ha1 ha2]
    refine ⟨?_, rfl, fun b => rfl⟩
    unfold MemoryBus.ramVal
    dsimp only
    rw [if_neg (by omega : ¬ a ≤ 0xDFFF)]

/-- Pushing a 16-bit value and popping it back through the bus returns the
value and restores SP, provided the two stack cells live in WRAM or HRAM and
no OAM DMA blocking is active. -/
theorem push_pop_word_roundtrip (c : Cpu) (bus : MemoryBus) (value : Nat)
    (hv : value < 65536) (hsp : c.sp < 65536)
    (h1 : ramAddr ((c.sp + 65535) % 65536))
    (h2 : ramAddr (((c.sp + 65535) % 65536 + 65535) % 65536))
    (hdma : bus.memory_access_type ≠ MemoryAccessType.DMA) :
    ((c.push_word bus value).1.pop_word (c.push_word bus value).2).1 = value ∧
    ((c.push_word bus value).1.pop_word (c.push_word bus value).2).2.1
      = { c with sp := c.sp } := by
  set a1 := (c.sp + 65535) % 65536 with ha1def
  set a2 := ((c.sp + 65535) % 65536 + 65535) % 65536 with ha2def
  have hne : a1 ≠ a2 := by
    rw [ha1def, ha2def]
    omega
  have hpush : c.push_word bus value
      = ({ c with sp := a2 },
         (bus.write_byte a1 ((value >>> 8) &&& 0xFF)).write_byte a2 (value &&& 0xFF)) := rfl
  have W1 := write_byte_ramVal bus a1 ((value >>> 8) &&& 0xFF) h1 hdma
  have hd1 : (bus.write_byte a1 ((value >>> 8) &&& 0xFF)).memory_access_type
      ≠ MemoryAccessType.DMA := by
    rw [W1.1]
    intro h
    cases h
  have W2 := write_byte_ramVal (bus.write_byte a1 ((value >>> 8) &&& 0xFF)) a2
    (value &&& 0xFF) h2 hd1
  have hd2 : ((bus.write_byte a1 ((value >>> 8) &&& 0xFF)).write_byte a2
      (value &&& 0xFF)).memory_access_type ≠ MemoryAccessType.DMA := by
    rw [W2.1]
    intro h
    cases h
  have R1 := read_byte_ramVal ((bus.write_byte a1 ((value >>> 8) &&& 0xFF)).write_byte a2
    (value &&& 0xFF)) a2 h2 hd2
  have hd3 : (((bus.write_byte a1 ((value >>> 8) &&& 0xFF)).write_byte a2
      (value &&& 0xFF)).read_byte a2).2.memory_access_type ≠ MemoryAccessType.DMA := by
    rw [R1.2.1]
    intro h
    cases h
  have R2 := read_byte_ramVal (((bus.write_byte a1 ((value >>> 8) &&& 0xFF)).write_byte a2
    (value &&& 0xFF)).read_byte a2).2 a1 h1 hd3
  have hlo : (((bus.write_byte a1 ((value >>> 8) &&& 0xFF)).write_byte a2
      (value &&& 0xFF)).read_byte a2).1 = value &&& 0xFF := by
    rw [R1.1, W2.2 a2 h2, if_pos rfl]
  have hhi : ((((bus.write_byte a1 ((value >>> 8) &&& 0xFF)).write_byte a2
      (value &&& 0xFF)).read_byte a2).2.read_byte a1).1 = (value >>> 8) &&& 0xFF := by
    rw [R2.1, R1.2.2 a1, W2.2 a1 h1, if_neg hne, W1.2 a1 h1, if_pos rfl]
  have hread2addr : (a2 + 1) % 65536 = a1 := by
    rw [ha1def, ha2def]
    omega
  have hpop : ∀ (cc : Cpu) (b : MemoryBus), cc.pop_word b =
      ((((b.read_byte cc.sp).2.read_byte ((cc.sp + 1) % 65536)).1 <<< 8)
          ||| (b.read_byte cc.sp).1,
       { cc with sp := ((cc.sp + 1) % 65536 + 1) % 65536 },
       ((b.read_byte cc.sp).2.read_byte ((cc.sp + 1) % 65536)).2) :=
    fun cc b => rfl
  have hsp2 : ((a2 + 1) % 65536 + 1) % 65536 = c.sp := by
    rw [ha2def]
    omega
  constructor
  · rw [hpush, hpop]
    dsimp only
    rw [hread2addr, hlo, hhi]
    exact recombine16 value hv
  · rw [hpush, hpop]
    dsimp only
    rw [hsp2]

/-- C7 counterexample.  The claim states that writing IE changes only bits
0-4 of the stored register; on the reset bus the stored IE byte is 0x00, and
the first write (of 0x00, through the bus) forces the stored bits 5-7 from 0
to 1, so the write changed more than bits 0-4 of the stored register. -/
theorem c7_first_ie_write_changes_stored_high_bits :
    (MemoryBus.new []).ie_register &&& 0xE0 = 0 ∧
    ((MemoryBus.new []).write_byte 0xFFFF 0).ie_register &&& 0xE0 = 0xE0 ∧
    ((MemoryBus.new []).write_byte 0xFFFF 0).ie_register &&& 0xE0
      ≠ (MemoryBus.new []).ie_register &&& 0xE0 := by
  refine ⟨by decide, by decide, by decide⟩

/-- C7 as amended: bus reads of IE (0xFFFF) and IF (0xFF0F) always return a
byte with bits 5-7 set (for IF under the invariant — set at reset and
preserved by IF writes and by interrupt request/clear — that the stored IF
byte has bits 5-7 set); a non-blocked write of v stores (v AND 0x1F) OR 0xE0
into the register, so bits 0-4 come from v; for IF such a write changes only
bits 0-4 of the stored byte, while for IE the very first write also raises
the stored bits 5-7 (reads OR in 0xE0 regardless). -/
theorem c7_ie_if_bit_masking (bus : MemoryBus) (v : Nat) (rom : List Nat)
    (it : InterruptType)
    (hIF : bus.io_registers 0x0F &&& 0xE0 = 0xE0) :
    (bus.read_byte 0xFFFF).1 &&& 0xE0 = 0xE0 ∧
    (bus.read_byte 0xFF0F).1 &&& 0xE0 = 0xE0 ∧
    (bus.memory_access_type ≠ MemoryAccessType.DMA →
      (bus.write_byte 0xFFFF v).ie_register = (v &&& 0x1F) ||| 0xE0 ∧
      (bus.write_byte 0xFF0F v).io_registers 0x0F = (v &&& 0x1F) ||| 0xE0) ∧
    (bus.write_byte 0xFF0F v).io_registers 0x0F &&& 0xE0
      = bus.io_registers 0x0F &&& 0xE0 ∧
    (MemoryBus.new rom).io_registers 0x0F &&& 0xE0 = 0xE0 ∧
    (bus.request_interrupt it).io_registers 0x0F &&& 0xE0
      = bus.io_registers 0x0F &&& 0xE0 ∧
    (bus.clear_interrupt it).io_registers 0x0F &&& 0xE0
      = bus.io_registers 0x0F &&& 0xE0 := by
  refine ⟨?_, ?_, ?_, ?_, ?_, ?_, ?_⟩
  · by_cases hd : bus.memory_access_type = MemoryAccessType.DMA
    · simp [MemoryBus.read_byte, hd]
      decide
    · simp [MemoryBus.read_byte, hd, MemoryBus.get_ie, orE0_and]
  · by_cases hd : bus.memory_access_type = MemoryAccessType.DMA
    · simp [MemoryBus.read_byte, hd]
      decide
    · simp [MemoryBus.read_byte, hd, MemoryBus.read_io_reg, MemoryBus.get_if, hIF]
  · intro hd
    constructor
    · simp [MemoryBus.write_byte, hd, MemoryBus.set_ie]
    · simp [MemoryBus.write_byte, hd, MemoryBus.write_io_reg, MemoryBus.set_if]
  · by_cases hd : bus.memory_access_type = MemoryAccessType.DMA
    · simp [MemoryBus.write_byte, hd]
    · simp [MemoryBus.write_byte, hd, MemoryBus.write_io_reg, MemoryBus.set_if,
        orE0_and, hIF]
  · have hnew : (MemoryBus.new rom).io_registers 0x0F = 0xE1 := rfl
    rw [hnew]
    decide
  · show (bus.io_registers 0x0F ||| (1 <<< it.idx)) &&& 0xE0
      = bus.io_registers 0x0F &&& 0xE0
    apply or_low_and
    cases it <;> decide
  · show (bus.io_registers 0x0F &&& (0xFF - (1 <<< it.idx))) &&& 0xE0
      = bus.io_registers 0x0F &&& 0xE0
    apply and_keep_and
    cases it <;> decide

/-- C7 witness: the amended theorem applied to a fresh bus, value 0x15 and
the Timer source. -/
theorem c7_ie_if_bit_masking_witness :
    ((MemoryBus.new []).read_byte 0xFFFF).1 &&& 0xE0 = 0xE0 ∧
    ((MemoryBus.new []).read_byte 0xFF0F).1 &&& 0xE0 = 0xE0 ∧
    ((MemoryBus.new []).memory_access_type ≠ MemoryAccessType.DMA →
      ((MemoryBus.new []).write_byte 0xFFFF 0x15).ie_register = (0x15 &&& 0x1F) ||| 0xE0 ∧
      ((MemoryBus.new []).write_byte 0xFF0F 0x15).io_registers 0x0F
        = (0x15 &&& 0x1F) ||| 0xE0) ∧
    ((MemoryBus.new []).write_byte 0xFF0F 0x15).io_registers 0x0F &&& 0xE0
      = (MemoryBus.new []).io_registers 0x0F &&& 0xE0 ∧
    (MemoryBus.new []).io_registers 0x0F &&& 0xE0 = 0xE0 ∧
    ((MemoryBus.new []).request_interrupt InterruptType.Timer).io_registers 0x0F &&& 0xE0
      = (MemoryBus.new []).io_registers 0x0F &&& 0xE0 ∧
    ((MemoryBus.new []).clear_interrupt InterruptType.Timer).io_registers 0x0F &&& 0xE0
      = (MemoryBus.new []).io_registers 0x0F &&& 0xE0 :=
  c7_ie_if_bit_masking (MemoryBus.new []) 0x15 [] InterruptType.Timer (by decide)

/-- C8.  For every CPU and bus state whose two stack cells SP-1 and SP-2 lie
in WRAM or HRAM with no OAM DMA blocking active (and registers in u16
range), PUSH rr followed by POP rr restores both rr and SP for
rr in {BC, DE, HL}; for AF the pair comes back as AF AND 0xFFF0 (the F low
nibble is forced to zero by set_af), an identity when the low nibble was
already zero. -/
theorem c8_push_pop_roundtrip (c : Cpu) (bus : MemoryBus)
    (hsp : c.sp < 65536) (hbc : c.bc < 65536) (hde : c.de < 65536)
    (hhl : c.hl < 65536) (haf : c.af < 65536)
    (h1 : ramAddr ((c.sp + 65535) % 65536))
    (h2 : ramAddr (((c.sp + 65535) % 65536 + 65535) % 65536))
    (hdma : bus.memory_access_type ≠ MemoryAccessType.DMA) :
    ((Cpu.executeInstr 0xC5 c bus).bind fun r => Cpu.executeInstr 0xC1 r.2.1 r.2.2).map
        (fun r => (r.2.1.bc, r.2.1.sp)) = some (c.bc, c.sp) ∧
    ((Cpu.executeInstr 0xD5 c bus).bind fun r => Cpu.executeInstr 0xD1 r.2.1 r.2.2).map
        (fun r => (r.2.1.de, r.2.1.sp)) = some (c.de, c.sp) ∧
    ((Cpu.executeInstr 0xE5 c bus).bind fun r => Cpu.executeInstr 0xE1 r.2.1 r.2.2).map
        (fun r => (r.2.1.hl, r.2.1.sp)) = some (c.hl, c.sp) ∧
    ((Cpu.executeInstr 0xF5 c bus).bind fun r => Cpu.executeInstr 0xF1 r.2.1 r.2.2).map
        (fun r => (r.2.1.af, r.2.1.sp)) = some (c.af &&& 0xFFF0, c.sp) := by
  refine ⟨?_, ?_, ?_, ?_⟩
  · have rt := push_pop_word_roundtrip c bus c.bc hbc hsp h1 h2 hdma
    rw [show Cpu.executeInstr 0xC5 c bus
        = some (16, (c.push_word bus c.bc).1, (c.push_word bus c.bc).2) from rfl]
    rw [show ((some (16, (c.push_word bus c.bc).1, (c.push_word bus c.bc).2)).bind
          fun r => Cpu.executeInstr 0xC1 r.2.1 r.2.2)
        = Cpu.executeInstr 0xC1 (c.push_word bus c.bc).1 (c.push_word bus c.bc).2 from rfl]
    rw [show Cpu.executeInstr 0xC1 (c.push_word bus c.bc).1 (c.push_word bus c.bc).2
        = some (12,
            (((c.push_word bus c.bc).1.pop_word (c.push_word bus c.bc).2).2.1).set_bc
              (((c.push_word bus c.bc).1.pop_word (c.push_word bus c.bc).2).1),
            ((c.push_word bus c.bc).1.pop_word (c.push_word bus c.bc).2).2.2) from rfl]
    rw [Option.map_some']
    dsimp only [Cpu.set_bc]
    rw [rt.1, rt.2]
  · have rt := push_pop_word_roundtrip c bus c.de hde hsp h1 h2 hdma
    rw [show Cpu.executeInstr 0xD5 c bus
        = some (16, (c.push_word bus c.de).1, (c.push_word bus c.de).2) from rfl]
    rw [show ((some (16, (c.push_word bus c.de).1, (c.push_word bus c.de).2)).bind
          fun r => Cpu.executeInstr 0xD1 r.2.1 r.2.2)
        = Cpu.executeInstr 0xD1 (c.push_word bus c.de).1 (c.push_word bus c.de).2 from rfl]
    rw [show Cpu.executeInstr 0xD1 (c.push_word bus c.de).1 (c.push_word bus c.de).2
        = some (12,
            (((c.push_word bus c.de).1.pop_word (c.push_word bus c.de).2).2.1).set_de
              (((c.push_word bus c.de).1.pop_word (c.push_word bus c.de).2).1),
            ((c.push_word bus c.de).1.pop_word (c.push_word bus c.de).2).2.2) from rfl]
    rw [Option.map_some']
    dsimp only [Cpu.set_de]
    rw [rt.1, rt.2]
  · have rt := push_pop_word_roundtrip c bus c.hl hhl hsp h1 h2 hdma
    rw [show Cpu.executeInstr 0xE5 c bus
        = some (16, (c.push_word bus c.hl).1, (c.push_word bus c.hl).2) from rfl]
    rw [show ((some (16, (c.push_word bus c.hl).1, (c.push_word bus c.hl).2)).bind
          fun r => Cpu.executeInstr 0xE1 r.2.1 r.2.2)
        = Cpu.executeInstr 0xE1 (c.push_word bus c.hl).1 (c.push_word bus c.hl).2 from rfl]
    rw [show Cpu.executeInstr 0xE1 (c.push_word bus c.hl).1 (c.push_word bus c.hl).2
        = some (12,
            (((c.push_word bus c.hl).1.pop_word (c.push_word bus c.hl).2).2.1).set_hl
              (((c.push_word bus c.hl).1.pop_word (c.push_word bus c.hl).2).1),
            ((c.push_word bus c.hl).1.pop_word (c.push_word bus c.hl).2).2.2) from rfl]
    rw [Option.map_some']
    dsimp only [Cpu.set_hl]
    rw [rt.1, rt.2]
  · have rt := push_pop_word_roundtrip c bus c.af haf hsp h1 h2 hdma
    rw [show Cpu.executeInstr 0xF5 c bus
        = some (16, (c.push_word bus c.af).1, (c.push_word bus c.af).2) from rfl]
    rw [show ((some (16, (c.push_word bus c.af).1, (c.push_word bus c.af).2)).bind
          fun r => Cpu.executeInstr 0xF1 r.2.1 r.2.2)
        = Cpu.executeInstr 0xF1 (c.push_word bus c.af).1 (c.push_word bus c.af).2 from rfl]
    rw [show Cpu.executeInstr 0xF1 (c.push_word bus c.af).1 (c.push_word bus c.af).2
        = some (12,
            (((c.push_word bus c.af).1.pop_word (c.push_word bus c.af).2).2.1).set_af
              (((c.push_word bus c.af).1.pop_word (c.push_word bus c.af).2).1),
            ((c.push_word bus c.af).1.pop_word (c.push_word bus c.af).2).2.2) from rfl]
    rw [Option.map_some']
    dsimp only [Cpu.set_af]
    rw [rt.1, rt.2]

/-- C8 witness: the roundtrip theorem applied to the post-boot CPU (SP =
0xFFFE, so the stack cells 0xFFFD and 0xFFFC are HRAM) over a fresh bus. -/
theorem c8_push_pop_roundtrip_witness :
    ((Cpu.executeInstr 0xC5 Cpu.reset (MemoryBus.new [])).bind
        fun r => Cpu.executeInstr 0xC1 r.2.1 r.2.2).map
        (fun r => (r.2.1.bc, r.2.1.sp)) = some (Cpu.reset.bc, Cpu.reset.sp) ∧
    ((Cpu.executeInstr 0xD5 Cpu.reset (MemoryBus.new [])).bind
        fun r => Cpu.executeInstr 0xD1 r.2.1 r.2.2).map
        (fun r => (r.2.1.de, r.2.1.sp)) = some (Cpu.reset.de, Cpu.reset.sp) ∧
    ((Cpu.executeInstr 0xE5 Cpu.reset (MemoryBus.new [])).bind
        fun r => Cpu.executeInstr 0xE1 r.2.1 r.2.2).map
        (fun r => (r.2.1.hl, r.2.1.sp)) = some (Cpu.reset.hl, Cpu.reset.sp) ∧
    ((Cpu.executeInstr 0xF5 Cpu.reset (MemoryBus.new [])).bind
        fun r => Cpu.executeInstr 0xF1 r.2.1 r.2.2).map
        (fun r => (r.2.1.af, r.2.1.sp)) = some (Cpu.reset.af &&& 0xFFF0, Cpu.reset.sp) :=
  c8_push_pop_roundtrip Cpu.reset (MemoryBus.new []) (by decide) (by decide) (by decide)
    (by decide) (by decide) (by decide) (by decide) (by decide)

end Emu101
